import Mathlib

/-! # govmm: the crosvm command-line assembler

A shallow embedding of `crosvm/crosvm.go` (the formatters of the command
line), of `crosvm/control.go` (launching, stopping and resizing a guest), of
`vmmlog/vmmlog.go` (the logger that discards) and of the function
QemuDeviceParam of `qemu/qemu_generic.go` and `qemu/qemu_s390x.go`.

Modelling conventions
* A Go `string` is a Lean `String`; a Go slice `[]T` is a `List T`, the nil
  slice being `[]` (the code only ever takes `len` of a slice, appends to it or
  ranges over it, so nil and empty are indistinguishable to it).
* A Go `uint` is a `Nat` (the code only compares it with zero and prints it).
* A Go `[]byte` (`net.IP`, `net.IPMask`) is a `List Nat` of byte values.
* A Go `error` is the `Option` of its message: `none` is the nil error.
* A Go function returning `([]string, error)` returns the pair `Result`, so
  that what is returned next to an error is visible too.
* A Go `int32` is an `Int` (the code only prints it).
* The functions of control.go return the events they produce (commands run,
  calls on the logger) with their error; LaunchCrosvmAsync, which starts
  goroutines, is a machine run under a schedule.
-/

namespace Crosvm

/-! ## Data model (crosvm.go, lines 25-122) -/

/-- SMP is the multi processors configuration structure. -/
structure SMP where
  CPUs : Nat := 0
  deriving DecidableEq, Repr

/-- Memory is the guest memory configuration structure. -/
structure Memory where
  Size : Nat := 0
  deriving DecidableEq, Repr

/-- Kernel is the guest kernel configuration structure. -/
structure Kernel where
  Path : String := ""
  Params : String := ""
  deriving DecidableEq, Repr

/-- NetDevice represents a guest networking device; `HostIP` is a `net.IP` and
`NetMask` a `net.IPMask`, both byte slices. -/
structure NetDevice where
  VHost : Bool := false
  MACAddress : String := ""
  HostIP : List Nat := []
  NetMask : List Nat := []
  deriving DecidableEq, Repr

/-- DiskType indicates the type of a disk image (`type DiskType string`). -/
abbrev DiskType := String

/-- FlatFile indicates that an image is a flat file. -/
def FlatFile : DiskType := "flatfile"

/-- QCOW indicates that an image is a QCOW file. -/
def QCOW : DiskType := "qcow"

/-- Disk represents a host disk image to be made accessible in the guest; the
field `Typ` is the Go field `Type`. -/
structure Disk where
  Typ : DiskType := ""
  Writeable : Bool := false
  Path : String := ""
  deriving DecidableEq, Repr

/-- Security contains the security settings for the guest. -/
structure Security where
  DisableSandbox : Bool := false
  SeccompPolicyDir : String := ""
  deriving DecidableEq, Repr

/-- Config is the crosvm configuration structure. -/
structure Config where
  Path : String := ""
  RootFS : String := ""
  Socket : String := ""
  Disks : List Disk := []
  Kernel : Kernel := {}
  Memory : Memory := {}
  SMP : SMP := {}
  Net : NetDevice := {}
  Sec : Security := {}
  deriving DecidableEq, Repr

/-- The two values `([]string, error)` a Go `appendArgs` returns. -/
abbrev Result := List String × Option String

/-! ## Go standard library: `fmt` and `net` renderings used by the code -/

/-- The rendering `fmt.Sprintf("%d", n)` of an unsigned integer. -/
def sprintfD (n : Nat) : String := String.mk (Nat.toDigits 10 n)

/-- The two lower-case hexadecimal digits of one byte (`hexDigit[b>>4]`,
`hexDigit[b&0xf]` in Go's `net.hexString`). -/
def hexByte (b : Nat) : List Char := [Nat.digitChar (b / 16 % 16), Nat.digitChar (b % 16)]

/-- Go's `net.hexString`: two hexadecimal digits for each byte. -/
def hexString (bs : List Nat) : String := String.mk (bs.flatMap hexByte)

/-- Go's `net.IPMask.String`: the hexadecimal form of a mask, with no
punctuation. -/
def IPMask.String (m : List Nat) : String :=
  if m.length = 0 then "<nil>" else hexString m

/-- Go's `net.IP.To4`: the 4-byte form of an IPv4 address, given either as 4
bytes or as a 16-byte IPv4-in-IPv6 address; `[]` (nil) for anything else. -/
def IP.To4 (ip : List Nat) : List Nat :=
  if ip.length = 4 then ip
  else if ip.length = 16 ∧ (ip.take 10).all (fun b => b == 0) ∧
      ip.getD 10 0 = 255 ∧ ip.getD 11 0 = 255 then ip.drop 12
  else []

/-- The dotted-decimal form of the bytes of an IPv4 address. -/
def dotted (p4 : List Nat) : String := ".".intercalate (p4.map sprintfD)

/-- The eight 16-bit fields of a 16-byte address, big-endian. -/
def v6fields : List Nat → List Nat
  | hi :: lo :: rest => (hi * 256 + lo) :: v6fields rest
  | _ => []

/-- Length of the run of zero fields at the head of a list. -/
def zeroRun : List Nat → Nat
  | 0 :: fs => zeroRun fs + 1
  | _ => 0

/-- The scan of Go's IPv6 formatter for the longest run of zero fields: from
field `i` on, with `best = (start, end)` the longest run found so far; a run
replaces it only if it has at least two fields and is strictly longer. -/
def longestZeroRun : List Nat → Nat → Nat × Nat → Nat × Nat
  | [], _, best => best
  | f :: fs, i, best =>
    let l := zeroRun (f :: fs)
    longestZeroRun fs (i + 1) (if 2 ≤ l ∧ best.2 - best.1 < l then (i, i + l) else best)

/-- The output loop of Go's IPv6 formatter over the fields from index `i` on:
the run `[z0, z1)` of zero fields is written "::" at its first field and its
other fields are skipped; every other field is written in hexadecimal without
leading zeros, after a colon unless it is the first field or the one that
follows the run. -/
def v6render (z0 z1 : Nat) : List Nat → Nat → List Char
  | [], _ => []
  | f :: fs, i =>
    if i = z0 then ':' :: ':' :: v6render z0 z1 fs (i + 1)
    else if z0 < i ∧ i < z1 then v6render z0 z1 fs (i + 1)
    else (if 0 < i ∧ i ≠ z1 then [':'] else []) ++ Nat.toDigits 16 f ++
      v6render z0 z1 fs (i + 1)

/-- Go's `net.IP.String`: "<nil>" for an empty address, "?" and the
hexadecimal bytes for one that has neither 4 nor 16 bytes, dotted decimal for
an IPv4 address (also in its 16-byte form), the IPv6 text form otherwise. -/
def IP.String (ip : List Nat) : String :=
  if ip.length = 0 then "<nil>"
  else if ip.length ≠ 4 ∧ ip.length ≠ 16 then "?" ++ hexString ip
  else if (IP.To4 ip).length = 4 then dotted (IP.To4 ip)
  else
    let fs := v6fields ip
    let z := longestZeroRun fs 0 (255, 255)
    String.mk (v6render z.1 z.2 fs 0)

/-! ## The formatters (crosvm.go, lines 124-237) -/

/-- SMP.appendArgs (crosvm.go, lines 124-129). -/
def SMP.appendArgs (s : SMP) (args : List String) : Result :=
  if 0 < s.CPUs then (args ++ ["-c", sprintfD s.CPUs], none) else (args, none)

/-- Memory.appendArgs (crosvm.go, lines 131-136). -/
def Memory.appendArgs (m : Memory) (args : List String) : Result :=
  if 0 < m.Size then (args ++ ["-m", sprintfD m.Size], none) else (args, none)

/-- Kernel.appendArgs (crosvm.go, lines 139-149). -/
def Kernel.appendArgs (k : Kernel) (args : List String) : Result :=
  if k.Path = "" then ([], some "Kernel path must be specified")
  else
    let args := if k.Params ≠ "" then args ++ ["-p", k.Params] else args
    (args ++ [k.Path], none)

/-- NetDevice.appendArgs (crosvm.go, lines 151-169). -/
def NetDevice.appendArgs (n : NetDevice) (args : List String) : Result :=
  if n.MACAddress = "" ∧ n.HostIP.length = 0 ∧ n.NetMask.length = 0 then (args, none)
  else if n.MACAddress = "" ∨ n.HostIP.length = 0 ∨ n.NetMask.length = 0 then
    ([], some "MACAddress, HostIP and NetMask must be defined")
  else
    let args := args ++ ["--mac", n.MACAddress]
    let args := args ++ ["--host_ip", IP.String n.HostIP]
    let args := args ++ ["--netmask", IP.String n.NetMask]
    let args := if n.VHost then args ++ ["--vhost-net"] else args
    (args, none)

/-- Disk.appendArgs (crosvm.go, lines 171-191). -/
def Disk.appendArgs (d : Disk) (args : List String) : Result :=
  if d.Path = "" then ([], some "Path not specified for disk")
  else if d.Typ = FlatFile then
    let opt := "disk"
    let opt := if d.Writeable then "rw" ++ opt else opt
    (args ++ ["--" ++ opt, d.Path], none)
  else if d.Typ = QCOW then
    let opt := "qcow"
    let opt := if d.Writeable then "rw" ++ opt else opt
    (args ++ ["--" ++ opt, d.Path], none)
  else ([], some ("Unknown disk type " ++ d.Typ))

/-- Security.appendArgs (crosvm.go, lines 193-199). -/
def Security.appendArgs (c : Security) (args : List String) : Result :=
  if c.DisableSandbox then (args ++ ["--disable-sandbox"], none)
  else (args ++ ["-u", "--seccomp-policy-dir", c.SeccompPolicyDir], none)

/-- The loop over the disks in Config.appendArgs (crosvm.go, lines 216-221):
each disk formats onto the list so far; the first error ends the loop and is
returned with a nil list. -/
def appendDisks : List Disk → List String → Result
  | [], args => (args, none)
  | d :: ds, args =>
    match d.appendArgs args with
    | (args, none) => appendDisks ds args
    | (_, some err) => ([], some err)

/-- The loop over the formatter functions in Config.appendArgs (crosvm.go,
lines 223-234), with the same early return. -/
def appendFns : List (List String → Result) → List String → Result
  | [], args => (args, none)
  | fn :: fns, args =>
    match fn args with
    | (args, none) => appendFns fns args
    | (_, some err) => ([], some err)

/-- Config.appendArgs (crosvm.go, lines 201-237). -/
def Config.appendArgs (c : Config) (args : List String) : Result :=
  if c.RootFS = "" ∧ c.Disks.length = 0 then ([], some "No rootfs or disks specified")
  else if c.Socket = "" then ([], some "Socket path must be defined")
  else
    let args := args ++ ["-s", c.Socket]
    let args := if c.RootFS ≠ "" then args ++ ["-r", c.RootFS] else args
    match appendDisks c.Disks args with
    | (_, some err) => ([], some err)
    | (args, none) =>
      appendFns [c.Net.appendArgs, c.Memory.appendArgs, c.SMP.appendArgs,
        c.Sec.appendArgs, c.Kernel.appendArgs] args

/-! ## The configurations of crosvm_test.go -/

/-- The first configuration of TestConfigGood; `net.ParseIP` gives the 16-byte
form of the address and `net.IPv4Mask` a 4-byte mask. -/
def testCfg : Config :=
  { RootFS := "crosvm/rootfs.ext4"
    Socket := "/run/user/1000/crosvm.sock"
    Kernel :=
      { Path := "linux/arch/x86/boot/compressed/vmlinux.bin"
        Params := "ip=192.168.30.2::192.168.30.1:255.255.255.0:crosvm:eth0" }
    Memory := { Size := 1024 }
    SMP := { CPUs := 2 }
    Net :=
      { MACAddress := "AA:BB:CC:00:00:12"
        HostIP := [0, 0, 0, 0, 0, 0, 0, 0, 0, 0, 255, 255, 192, 168, 30, 1]
        NetMask := [255, 255, 255, 0]
        VHost := true }
    Sec := { DisableSandbox := true } }

/-- The third configuration of TestConfigGood: with disks and a seccomp
directory, without network, memory or CPU settings. -/
def testCfgDisks : Config :=
  { testCfg with
    Sec := { DisableSandbox := false, SeccompPolicyDir := "secdir" }
    Net := {}
    Memory := {}
    SMP := {}
    Disks :=
      [{ Typ := QCOW, Writeable := true, Path := "image.qcow" },
       { Typ := FlatFile, Writeable := false, Path := "image.ext4" }] }

/-- The minimal configuration of TestConfigBad. -/
def minimalCfg : Config :=
  { RootFS := "crosvm/rootfs.ext4"
    Socket := "/run/user/1000/crosvm.sock"
    Kernel := { Path := "linux/arch/x86/boot/compressed/vmlinux.bin" } }

/-! ## The checks, in the words of the specification -/

/-- A disk passes its checks: a path is given and the type is one of the two
recognized tags. -/
def Disk.ok (d : Disk) : Prop := d.Path ≠ "" ∧ (d.Typ = "flatfile" ∨ d.Typ = "qcow")

instance (d : Disk) : Decidable d.ok := by unfold Disk.ok; infer_instance

/-- The error of a disk that does not pass its checks. -/
def Disk.errorText (d : Disk) : String :=
  if d.Path = "" then "Path not specified for disk" else "Unknown disk type " ++ d.Typ

/-- How many of MACAddress, HostIP and NetMask are set. -/
def NetDevice.numSet (n : NetDevice) : Nat :=
  (if n.MACAddress ≠ "" then 1 else 0) + (if n.HostIP ≠ [] then 1 else 0) +
    (if n.NetMask ≠ [] then 1 else 0)

/-- The network device is partially specified: at least one, but not all three,
of MACAddress, HostIP and NetMask are set. -/
def NetDevice.partly (n : NetDevice) : Prop :=
  (n.MACAddress ≠ "" ∨ n.HostIP ≠ [] ∨ n.NetMask ≠ []) ∧
    ¬ (n.MACAddress ≠ "" ∧ n.HostIP ≠ [] ∧ n.NetMask ≠ [])

instance (n : NetDevice) : Decidable n.partly := by unfold NetDevice.partly; infer_instance

/-- The error of the first failing check of a configuration, the checks taken
in the order: root filesystem or disks, socket, the disks in their order,
network device, kernel path; `none` when every check passes. -/
def Config.firstError (c : Config) : Option String :=
  if c.RootFS = "" ∧ c.Disks = [] then some "No rootfs or disks specified"
  else if c.Socket = "" then some "Socket path must be defined"
  else
    match c.Disks.find? (fun d => ! decide d.ok) with
    | some d => some d.errorText
    | none =>
      if c.Net.partly then some "MACAddress, HostIP and NetMask must be defined"
      else if c.Kernel.Path = "" then some "Kernel path must be specified"
      else none

/-- The tokens of a configuration, group by group in the fixed order, each
group being what its formatter appends to the empty list. -/
def Config.groups (c : Config) : List String :=
  ["-s", c.Socket] ++ (if c.RootFS ≠ "" then ["-r", c.RootFS] else []) ++
    c.Disks.flatMap (fun d => (d.appendArgs []).1) ++
    (c.Net.appendArgs []).1 ++ (c.Memory.appendArgs []).1 ++ (c.SMP.appendArgs []).1 ++
    (c.Sec.appendArgs []).1 ++ (c.Kernel.appendArgs []).1

/-- The flag of a disk of a recognized type, by type and writability:
flatfile read-only "--disk", flatfile writable "--rwdisk", qcow read-only
"--qcow", qcow writable "--rwqcow". -/
def Disk.flag (d : Disk) : String :=
  if d.Typ = "flatfile" then (if d.Writeable then "--rwdisk" else "--disk")
  else (if d.Writeable then "--rwqcow" else "--qcow")

/-- The tokens of a configuration that come before those of the kernel. -/
def Config.beforeKernel (c : Config) : List String :=
  ["-s", c.Socket] ++ (if c.RootFS ≠ "" then ["-r", c.RootFS] else []) ++
    c.Disks.flatMap (fun d => (d.appendArgs []).1) ++
    (c.Net.appendArgs []).1 ++ (c.Memory.appendArgs []).1 ++ (c.SMP.appendArgs []).1 ++
    (c.Sec.appendArgs []).1

/-- The configuration of TestConfigGood with its two disks added: every group
of tokens is present. -/
def fullCfg : Config :=
  { testCfg with
    Disks :=
      [{ Typ := QCOW, Writeable := true, Path := "image.qcow" },
       { Typ := FlatFile, Writeable := false, Path := "image.ext4" }] }

/-- The first configuration of TestConfigGood without its root filesystem: it
has neither a root filesystem nor a disk. -/
def noRootCfg : Config := { testCfg with RootFS := "" }

/-- The minimal configuration of TestConfigBad without its kernel path. -/
def noKernelCfg : Config := { minimalCfg with Kernel := { Params := "quiet" } }

/-- A kernel with parameters and no path. -/
def noPathKernel : Kernel := { Params := "quiet" }

/-- The network device of TestConfigGood. -/
def testNet : NetDevice := testCfg.Net

/-- A network device with nothing set but the host offload. -/
def vhostOnlyNet : NetDevice := { VHost := true }

/-- The network device of TestConfigBad: a MAC address and a netmask, no host
address. -/
def noHostNet : NetDevice :=
  { MACAddress := "AA:BB:CC:00:00:12", NetMask := [255, 255, 255, 0] }

/-- A network device with a MAC address only. -/
def macOnlyNet : NetDevice := { MACAddress := "AA:BB:CC:00:00:12" }

/-- The first disk of TestConfigGood: a writable qcow image. -/
def qcowDisk : Disk := { Typ := QCOW, Writeable := true, Path := "image.qcow" }

/-- The second disk of TestConfigGood: a read-only flat file. -/
def flatDisk : Disk := { Typ := FlatFile, Writeable := false, Path := "image.ext4" }

/-- A writable flat file. -/
def rwFlatDisk : Disk := { Typ := FlatFile, Writeable := true, Path := "data.img" }

/-- A read-only qcow image. -/
def roQcowDisk : Disk := { Typ := QCOW, Writeable := false, Path := "base.qcow" }

/-- Another writable qcow image. -/
def qcowDisk2 : Disk := { Typ := QCOW, Writeable := true, Path := "other.qcow" }

/-- A disk with an unrecognized type and no path. -/
def rawNoPathDisk : Disk := { Typ := "raw" }

/-- A disk with an unrecognized type and a path. -/
def rawDisk : Disk := { Typ := "raw", Path := "image.raw" }

/-- The configuration of the concrete scenario of the specification. -/
def scenarioCfg : Config :=
  { RootFS := "rootfs.ext4"
    Socket := "/tmp/s.sock"
    Kernel := { Path := "vmlinux" }
    Memory := { Size := 1024 }
    SMP := { CPUs := 2 }
    Disks := [{ Typ := QCOW, Writeable := true, Path := "image.qcow" }]
    Sec := { DisableSandbox := true } }

/-! ## Launching and controlling a guest (control.go)

Running a process is an abstract operation: `proc` gives the error that
`cmd.Run()` returns for a command, and every function returns, with its error,
the list of the events it produced, in order: the commands it ran and the calls
it made on its logger. -/

/-- A `context.Context`: one the caller supplies, or the one that
LaunchCrosvmAsync derives with `context.WithCancel(context.Background())`. The
synchronous functions only pass it on. -/
inductive Context
  | caller (id : Nat)
  | derived
  deriving DecidableEq, Repr

/-- The `syscall.SysProcAttr` a non-nil `attr` points to; the code only passes
the pointer on. -/
structure SysProcAttr where
  id : Nat
  deriving DecidableEq, Repr

/-- The implementations of the interface `vmmlog.Log`: the NullLogger of
vmmlog.go, or a logger of the caller. -/
inductive Log
  | NullLogger
  | custom (id : Nat)
  deriving DecidableEq, Repr

/-- The command built by `exec.CommandContext(ctx, name, args...)` with its
`SysProcAttr` field set; `none` is the nil pointer. -/
structure Cmd where
  ctx : Context
  name : String
  args : List String
  SysProcAttr : Option SysProcAttr
  deriving DecidableEq, Repr

/-- What a function of control.go does besides returning: a call of `Infof`
on a logger (`none` is the nil interface) with a format, or the run of a
command. -/
inductive Event
  | Infof (logger : Option Log) (format : String)
  | Run (cmd : Cmd)
  deriving DecidableEq, Repr

/-- The events of a call and the error it returns. -/
abbrev Outcome := List Event × Option String

/-- The commands run among a list of events. -/
def invocations : List Event → List Cmd
  | [] => []
  | Event.Run cmd :: es => cmd :: invocations es
  | Event.Infof _ _ :: es => invocations es

/-- The rendering `fmt.Sprintf("%d", n)` of a signed integer. -/
def sprintfInt (n : Int) : String :=
  if n < 0 then "-" ++ sprintfD n.natAbs else sprintfD n.natAbs

/-- The function execCrosvm (control.go, lines 114-126). -/
def execCrosvm (proc : Cmd → Option String) (ctx : Context) (path : String)
    (args : List String) (attr : Option SysProcAttr) (logger : Option Log) : Outcome :=
  let path := if path = "" then "crosvm" else path
  let cmd : Cmd := { ctx := ctx, name := path, args := args, SysProcAttr := attr }
  ([Event.Infof logger "running %s %s", Event.Run cmd], proc cmd)

/-- The function LaunchCustomCrosvm (control.go, lines 37-44). -/
def LaunchCustomCrosvm (proc : Cmd → Option String) (ctx : Context) (path : String)
    (args : List String) (attr : Option SysProcAttr) (logger : Option Log) : Outcome :=
  let logger := if logger = none then some Log.NullLogger else logger
  let args := ["run"] ++ args
  execCrosvm proc ctx path args attr logger

/-- The function LaunchCrosvm (control.go, lines 52-60). -/
def LaunchCrosvm (proc : Cmd → Option String) (ctx : Context) (config : Config)
    (attr : Option SysProcAttr) (logger : Option Log) : Outcome :=
  match config.appendArgs [] with
  | (_, some err) => ([], some err)
  | (args, none) => LaunchCustomCrosvm proc ctx config.Path args attr logger

/-- The function ExecuteStop (control.go, lines 135-147). -/
def ExecuteStop (proc : Cmd → Option String) (ctx : Context) (path : String)
    (sockets : List String) (attr : Option SysProcAttr) (logger : Option Log) : Outcome :=
  if sockets.length = 0 then ([], some "Expected at least one socket path")
  else
    let logger := if logger = none then some Log.NullLogger else logger
    let args := ["stop"] ++ sockets
    execCrosvm proc ctx path args attr logger

/-- The function ExecuteBalloon (control.go, lines 156-168); `numPages` is an
`int32`. -/
def ExecuteBalloon (proc : Cmd → Option String) (ctx : Context) (path : String)
    (numPages : Int) (sockets : List String) (attr : Option SysProcAttr)
    (logger : Option Log) : Outcome :=
  if sockets.length = 0 then ([], some "Expected at least one socket path")
  else
    let logger := if logger = none then some Log.NullLogger else logger
    let args := ["balloon", sprintfInt numPages] ++ sockets
    execCrosvm proc ctx path args attr logger

/-- A process that fails with exit status 1. -/
def failingProc : Cmd → Option String := fun _ => some "exit status 1"

/-- A process that ends without error. -/
def okProc : Cmd → Option String := fun _ => none

/-! ## LaunchCrosvmAsync (control.go, lines 70-112)

The function starts two goroutines and then waits for the guest. It is
embedded as a machine: a state holds what the three threads share and where
the main one is, an action is one step of one thread or of the environment,
enabled or not in a state, and a schedule is a list of actions. A `select`
takes any one of its cases that can proceed. -/

/-- The text of `context.Canceled`, the error of a cancelled context. -/
def ctxCanceled : String := "context canceled"

/-- The text of `context.DeadlineExceeded`, the error of a context whose
deadline has passed. -/
def ctxDeadlineExceeded : String := "context deadline exceeded"

/-- The arguments of a call of LaunchCrosvmAsync. -/
structure AsyncArgs where
  ctx : Context
  config : Config
  attr : Option SysProcAttr
  logger : Option Log
  deriving DecidableEq, Repr

/-- The logger after the nil check (lines 72-74). -/
def AsyncArgs.log (x : AsyncArgs) : Option Log :=
  if x.logger = none then some Log.NullLogger else x.logger

/-- The call made in the first goroutine (lines 79-81), whose result is sent
on errCh: `LaunchCrosvm(ctx, config, nil, logger)`, with the derived context
for `ctx`. -/
def launcher (proc : Cmd → Option String) (x : AsyncArgs) : Outcome :=
  LaunchCrosvm proc Context.derived x.config none x.log

/-- Where the main thread is: in WaitForGuest before a dial (line 183) or in
the select after a failed one (line 190), back from WaitForGuest with its
error (line 99), in `wg.Wait()` after closing waitCompleteCh (line 101), or
returned with its result. -/
inductive MainPc
  | dialing
  | sleeping
  | waited (err : Option String)
  | closed (err : Option String)
  | returned (res : Option String)
  deriving DecidableEq, Repr

/-- Where the first goroutine is: before its call of LaunchCrosvm, in the call,
or past the send of its result. -/
inductive LauncherPc
  | ready
  | running
  | done
  deriving DecidableEq, Repr

/-- The state of a call of LaunchCrosvmAsync. -/
structure AsyncState where
  launcher : LauncherPc
  /-- The buffer, of size one, of errCh. -/
  errCh : Option (Option String)
  /-- The error `ctx.Err()` of the context of the caller: `none` until it is
  cancelled or times out. -/
  ctxErr : Option String
  /-- The derived context is cancelled: cancelFn has been called. -/
  localDone : Bool
  /-- The channel waitCompleteCh is closed. -/
  waitCompleteClosed : Bool
  /-- The variable launchErr. -/
  launchErr : Option String
  /-- The second goroutine is past its select and has called `wg.Done()`. -/
  selected : Bool
  main : MainPc
  events : List Event
  deriving DecidableEq, Repr

/-- One step of a thread or of the environment. -/
inductive Action
  /-- The first goroutine calls LaunchCrosvm, which logs and starts the command
  when the configuration is valid. -/
  | launcherStarts
  /-- LaunchCrosvm returns in the first goroutine and its result is sent. -/
  | launcherReturns
  /-- The context of the caller is cancelled or times out, with this error. -/
  | ctxDone (err : String)
  /-- The select of the second goroutine takes `launchErr = <-errCh`. -/
  | selectErrCh
  /-- The select of the second goroutine takes `<-ctx.Done()`. -/
  | selectCtxDone
  /-- The select of the second goroutine takes `<-waitCompleteCh`. -/
  | selectWaitComplete
  /-- A dial of WaitForGuest fails. -/
  | dialFails
  /-- A dial of WaitForGuest succeeds. -/
  | dialSucceeds
  /-- The select of WaitForGuest after a failed dial takes `<-ctx.Done()`. -/
  | sleepCtxDone
  /-- The select of WaitForGuest after a failed dial takes the timer. -/
  | sleepTimer
  /-- The main thread closes waitCompleteCh. -/
  | closeWaitComplete
  /-- The call `wg.Wait()` returns and the main thread goes on to return. -/
  | wgWaitReturns
  deriving DecidableEq, Repr

/-- The action is the cancellation or the timing out of the context of the
caller. -/
def Action.isCtxDone : Action → Bool
  | Action.ctxDone _ => true
  | _ => false

/-- The state when the main thread enters WaitForGuest (line 99): both
goroutines are started and "Waiting for guest to start" is logged. -/
def AsyncState.init (x : AsyncArgs) : AsyncState :=
  { launcher := LauncherPc.ready, errCh := none, ctxErr := none, localDone := false,
    waitCompleteClosed := false, launchErr := none, selected := false,
    main := MainPc.dialing,
    events := [Event.Infof x.log "Waiting for guest to start"] }

/-- The state after an action, `none` when the action is not enabled. -/
def step (proc : Cmd → Option String) (x : AsyncArgs) (s : AsyncState) :
    Action → Option AsyncState
  | Action.launcherStarts =>
    match s.launcher with
    | LauncherPc.ready => some { s with
        launcher := LauncherPc.running, events := s.events ++ (launcher proc x).1 }
    | _ => none
  | Action.launcherReturns =>
    match s.launcher with
    | LauncherPc.running => some { s with
        launcher := LauncherPc.done, errCh := some (launcher proc x).2 }
    | _ => none
  | Action.ctxDone err =>
    if s.ctxErr = none then some { s with ctxErr := some err } else none
  | Action.selectErrCh =>
    if s.selected = true then none
    else
      match s.errCh with
      | some r => some { s with launchErr := r, errCh := none, localDone := true, selected := true }
      | none => none
  | Action.selectCtxDone =>
    if s.selected = true then none
    else if s.ctxErr = none then none
    else some { s with localDone := true, selected := true }
  | Action.selectWaitComplete =>
    if s.selected = true then none
    else if s.waitCompleteClosed = true then some { s with selected := true }
    else none
  | Action.dialFails =>
    match s.main with
    | MainPc.dialing => some { s with
        main := MainPc.sleeping,
        events := s.events ++ [Event.Infof x.log "Attempt to open guest socket failed %v"] }
    | _ => none
  | Action.dialSucceeds =>
    match s.main with
    | MainPc.dialing => some { s with
        main := MainPc.waited none,
        events := s.events ++ [Event.Infof x.log "Successfully connected to guest socket"] }
    | _ => none
  | Action.sleepCtxDone =>
    match s.main with
    | MainPc.sleeping =>
      if s.localDone = true then some { s with main := MainPc.waited (some ctxCanceled) }
      else none
    | _ => none
  | Action.sleepTimer =>
    match s.main with
    | MainPc.sleeping =>
      if s.localDone = true then some { s with main := MainPc.waited (some ctxCanceled) }
      else some { s with
        main := MainPc.dialing,
        events := s.events ++ [Event.Infof x.log "Trying to open guest socket again"] }
    | _ => none
  | Action.closeWaitComplete =>
    match s.main with
    | MainPc.waited err => some { s with main := MainPc.closed err, waitCompleteClosed := true }
    | _ => none
  | Action.wgWaitReturns =>
    match s.main with
    | MainPc.closed err =>
      if s.selected = true then
        match s.launchErr with
        | some e => some { s with
            main := MainPc.returned (some e),
            events := s.events ++ [Event.Infof x.log "Guest failed to launch: %v"] }
        | none => some { s with
            main := MainPc.returned err,
            events := s.events ++
              (if err = none then [] else [Event.Infof x.log "Launch cancelled: %v"]) }
      else none
    | _ => none

/-- The state after a schedule, `none` when one of its actions is not
enabled when its turn comes. -/
def runAsync (proc : Cmd → Option String) (x : AsyncArgs) :
    List Action → AsyncState → Option AsyncState
  | [], s => some s
  | a :: as, s =>
    match step proc x s a with
    | some s' => runAsync proc x as s'
    | none => none

/-- What LaunchCrosvmAsync returns under a schedule: `some res` when the
schedule can be followed and the main thread has returned `res` at its
end. -/
def LaunchCrosvmAsync (proc : Cmd → Option String) (schedule : List Action) (ctx : Context)
    (config : Config) (attr : Option SysProcAttr) (logger : Option Log) :
    Option (Option String) :=
  let x : AsyncArgs := { ctx := ctx, config := config, attr := attr, logger := logger }
  match runAsync proc x schedule (AsyncState.init x) with
  | some s =>
    match s.main with
    | MainPc.returned res => some res
    | _ => none
  | none => none

/-- A schedule in which the launch fails, the context of the caller is
cancelled, and the second goroutine takes the cancellation. -/
def cancelWinsSchedule : List Action :=
  [Action.launcherStarts, Action.launcherReturns, Action.ctxDone ctxCanceled,
    Action.selectCtxDone, Action.dialFails,
    Action.sleepCtxDone, Action.closeWaitComplete, Action.wgWaitReturns]

/-- A schedule in which the launch fails and the second goroutine takes its
error, while the main thread is between two dials. -/
def launchErrorSchedule : List Action :=
  [Action.launcherStarts, Action.dialFails, Action.launcherReturns, Action.selectErrCh,
    Action.sleepTimer,
    Action.closeWaitComplete, Action.wgWaitReturns]

/-- As `launchErrorSchedule`, with the context of the caller cancelled before
the second goroutine takes the error of the launch. -/
def launchErrorCancelSchedule : List Action :=
  [Action.launcherStarts, Action.dialFails, Action.launcherReturns,
    Action.ctxDone ctxCanceled, Action.selectErrCh,
    Action.sleepCtxDone, Action.closeWaitComplete, Action.wgWaitReturns]

/-! ### Invariants of the machine, for a launch whose result is `r` -/

/-- In every reachable state: what is in errCh is the result of the launch,
launchErr is nil or that result, and the main thread has returned only after
the second goroutine passed its select. -/
def globalInv (r : Option String) (s : AsyncState) : Prop :=
  (∀ v, s.errCh = some v → v = r) ∧ (s.launchErr = none ∨ s.launchErr = r) ∧
    (∀ res, s.main = MainPc.returned res → s.selected = true)

/-- Once the second goroutine has taken the error `e` of the launch: launchErr
holds it and the main thread returns nothing else. -/
def takenInv (e : String) (s : AsyncState) : Prop :=
  s.selected = true ∧ s.launchErr = some e ∧
    (∀ res, s.main = MainPc.returned res → res = some e)

/-- While no dial succeeds, for a launch that fails with `e`: WaitForGuest
returns only the error of the cancelled derived context, and the main thread
returns that error or `e`. -/
def noDialInv (e : String) (s : AsyncState) : Prop :=
  (s.launchErr = none ∨ s.launchErr = some e) ∧
    (∀ err, s.main = MainPc.waited err → err = some ctxCanceled) ∧
    (∀ err, s.main = MainPc.closed err → err = some ctxCanceled) ∧
    (∀ res, s.main = MainPc.returned res → res = some e ∨ res = some ctxCanceled)

/-- While the context of the caller is not done and no dial succeeds: what is
in errCh is the result of the launch, the derived context is cancelled only
once the second goroutine has taken that result, and the main thread leaves
WaitForGuest only after that. -/
def quietInv (r : Option String) (s : AsyncState) : Prop :=
  s.ctxErr = none ∧ (∀ v, s.errCh = some v → v = r) ∧
    (s.localDone = true → s.selected = true ∧ s.launchErr = r) ∧
    (s.waitCompleteClosed = true → s.localDone = true) ∧
    (∀ err, s.main = MainPc.waited err → s.localDone = true) ∧
    (∀ err, s.main = MainPc.closed err → s.localDone = true) ∧
    (∀ res, s.main = MainPc.returned res → res = r)

/-- While the context of the caller is not done and no dial succeeds: the
second goroutine is at its select until the launch has returned, finds the
result in errCh from then on, and has cancelled the derived context once it is
past its select. -/
def liveInv (r : Option String) (s : AsyncState) : Prop :=
  (s.launcher ≠ LauncherPc.done → s.selected = false ∧ s.errCh = none) ∧
    (s.launcher = LauncherPc.done → s.selected = false → s.errCh = some r) ∧
    (s.selected = true → s.localDone = true) ∧
    (∀ res, s.main = MainPc.returned res → s.selected = true)

/-- A schedule that takes a state to the return of the main thread when the
launch fails, the context of the caller is not done and no dial succeeds: the
launch returns, the second goroutine takes its error, and the main thread
goes through a failed dial, the cancellation of the derived context, the
close of waitCompleteCh and `wg.Wait()`. -/
def completion (s : AsyncState) : List Action :=
  (match s.launcher with
    | LauncherPc.ready => [Action.launcherStarts, Action.launcherReturns]
    | LauncherPc.running => [Action.launcherReturns]
    | LauncherPc.done => []) ++
  (if s.selected = true then [] else [Action.selectErrCh]) ++
  (match s.main with
    | MainPc.dialing =>
      [Action.dialFails, Action.sleepCtxDone, Action.closeWaitComplete, Action.wgWaitReturns]
    | MainPc.sleeping => [Action.sleepCtxDone, Action.closeWaitComplete, Action.wgWaitReturns]
    | MainPc.waited _ => [Action.closeWaitComplete, Action.wgWaitReturns]
    | MainPc.closed _ => [Action.wgWaitReturns]
    | MainPc.returned _ => [])

/-- In every reachable state: errCh is empty until the launch has returned and
holds its result from then until the second goroutine is past its select;
that goroutine is past its select only with the derived context cancelled or
waitCompleteCh closed; waitCompleteCh is not closed while the main thread is
in WaitForGuest or just back from it; and the main thread has returned only
after the second goroutine passed its select. -/
def progressInv (r : Option String) (s : AsyncState) : Prop :=
  (s.launcher ≠ LauncherPc.done → s.errCh = none) ∧
    (s.launcher = LauncherPc.done → s.selected = false → s.errCh = some r) ∧
    (s.selected = true → s.localDone = true ∨ s.waitCompleteClosed = true) ∧
    (s.main = MainPc.dialing → s.waitCompleteClosed = false) ∧
    (s.main = MainPc.sleeping → s.waitCompleteClosed = false) ∧
    (∀ err, s.main = MainPc.waited err → s.waitCompleteClosed = false) ∧
    (∀ res, s.main = MainPc.returned res → s.selected = true)

/-- The start of a schedule: the launch fails, the context of the caller times
out, and the second goroutine takes the error of the launch while the main
thread is between two dials. -/
def timedOutTakenPrefix : List Action :=
  [Action.launcherStarts, Action.dialFails, Action.launcherReturns,
    Action.ctxDone ctxDeadlineExceeded, Action.selectErrCh]

/-- A schedule is quiet: the context of the caller is not cancelled and does
not time out in it, and no dial succeeds. -/
def quiet (acts : List Action) : Prop :=
  ∀ a ∈ acts, a ≠ Action.dialSucceeds ∧ a.isCtxDone = false

/-- The commands run in a call of LaunchCrosvmAsync under a schedule. -/
def asyncInvocations (proc : Cmd → Option String) (schedule : List Action) (ctx : Context)
    (config : Config) (attr : Option SysProcAttr) (logger : Option Log) :
    Option (List Cmd) :=
  let x : AsyncArgs := { ctx := ctx, config := config, attr := attr, logger := logger }
  (runAsync proc x schedule (AsyncState.init x)).map (fun s => invocations s.events)

/-- A schedule in which the guest starts: the command is launched, the second
dial succeeds and the second goroutine is released by the close of
waitCompleteCh. -/
def readySchedule : List Action :=
  [Action.launcherStarts, Action.dialFails, Action.sleepTimer, Action.dialSucceeds,
    Action.closeWaitComplete, Action.selectWaitComplete, Action.wgWaitReturns]

/-! ## WaitForGuest (control.go, lines 172-208)

The dials and what the selects find are observations, one `Round` for each
turn of the loop. -/

/-- How the select after a failed dial (lines 190-199) ends: it takes
`<-ctx.Done()`; or it takes the timer, and the inner select then finds the
context done or not. -/
inductive Wake
  | ctxDone
  | timer (done : Bool)
  deriving DecidableEq, Repr

/-- What one turn of the loop observes: the error of the dial, `none` when it
succeeds, and how the select ends, which matters after a failed dial only. -/
structure Round where
  dial : Option String
  wake : Wake
  deriving DecidableEq, Repr

/-- A call `dialer.DialContext(ctx, network, address)`. -/
structure Dial where
  ctx : Context
  network : String
  address : String
  deriving DecidableEq, Repr

/-- What a call of WaitForGuest has done when it returns: the calls on its
logger, the dials, in order, and the error returned. -/
structure WaitResult where
  events : List Event
  dials : List Dial
  err : Option String
  deriving DecidableEq, Repr

/-- The loop of WaitForGuest (lines 182-202) over the observations left, from
the events and the dials so far; `ctxErr` is `ctx.Err()` once the context is
done. The result is `none` when the observations end before the function
returns. -/
def waitLoop (ctxErr : String) (ctx : Context) (path : String) (logger : Option Log) :
    List Round → List Event → List Dial → Option WaitResult
  | [], _, _ => none
  | r :: rs, ev, ds =>
    let ds := ds ++ [{ ctx := ctx, network := "unixgram", address := path }]
    match r.dial with
    | none => some
        { events := ev ++ [Event.Infof logger "Successfully connected to guest socket"],
          dials := ds, err := none }
    | some _ =>
      let ev := ev ++ [Event.Infof logger "Attempt to open guest socket failed %v"]
      match r.wake with
      | Wake.ctxDone => some { events := ev, dials := ds, err := some ctxErr }
      | Wake.timer true => some { events := ev, dials := ds, err := some ctxErr }
      | Wake.timer false =>
        waitLoop ctxErr ctx path logger rs
          (ev ++ [Event.Infof logger "Trying to open guest socket again"]) ds

/-- The function WaitForGuest (control.go, lines 172-208) under the
observations `rounds`. -/
def WaitForGuest (ctxErr : String) (rounds : List Round) (ctx : Context) (path : String)
    (logger : Option Log) : Option WaitResult :=
  let logger := if logger = none then some Log.NullLogger else logger
  waitLoop ctxErr ctx path logger rounds [] []

/-- After this turn the loop goes on: the dial failed, the timer fired and the
context was not done. -/
def Round.goesOn (r : Round) : Prop := r.dial ≠ none ∧ r.wake = Wake.timer false

instance (r : Round) : Decidable r.goesOn := by unfold Round.goesOn; infer_instance

/-- A turn whose dial fails and after which the loop goes on. -/
def retryRound : Round := { dial := some "connection refused", wake := Wake.timer false }

/-- A turn whose dial succeeds. -/
def connectRound : Round := { dial := none, wake := Wake.timer false }

/-- A turn whose dial fails and whose select takes the end of the context. -/
def cancelRound : Round := { dial := some "connection refused", wake := Wake.ctxDone }

/-- A turn whose dial fails and whose timer fires with the context done. -/
def lateCancelRound : Round := { dial := some "connection refused", wake := Wake.timer true }

/-! ## The logger (vmmlog.go)

A method that writes takes the log written so far and returns the log after
the call. -/

/-- The method V of NullLogger (vmmlog.go, lines 47-49). -/
def NullLogger.V : Int → Bool := fun _ => false

/-- The method Infof of NullLogger (vmmlog.go, lines 52-53). -/
def NullLogger.Infof : String → List String → List String → List String :=
  fun _ _ out => out

/-- The method Warningf of NullLogger (vmmlog.go, lines 56-57). -/
def NullLogger.Warningf : String → List String → List String → List String :=
  fun _ _ out => out

/-- The method Errorf of NullLogger (vmmlog.go, lines 60-61). -/
def NullLogger.Errorf : String → List String → List String → List String :=
  fun _ _ out => out

/-- Every call on a logger among the events is made on a NullLogger. -/
def logsOnNull (es : List Event) : Prop :=
  ∀ l f, Event.Infof l f ∈ es → l = some Log.NullLogger

/-- Every call on a logger among the events is made on the logger `l`. -/
def logsOn (l : Option Log) (es : List Event) : Prop :=
  ∀ l' f, Event.Infof l' f ∈ es → l' = l

/-- The events of a call of LaunchCrosvmAsync under a schedule. -/
def asyncEvents (proc : Cmd → Option String) (schedule : List Action) (ctx : Context)
    (config : Config) (attr : Option SysProcAttr) (logger : Option Log) :
    Option (List Event) :=
  let x : AsyncArgs := { ctx := ctx, config := config, attr := attr, logger := logger }
  (runAsync proc x schedule (AsyncState.init x)).map (fun s => s.events)

/-- A schedule in which the command is started and keeps running, no dial
succeeds, and the context of the caller times out. -/
def deadlineSchedule : List Action :=
  [Action.launcherStarts, Action.dialFails, Action.ctxDone ctxDeadlineExceeded,
    Action.selectCtxDone, Action.sleepCtxDone, Action.closeWaitComplete, Action.wgWaitReturns]

/-- As `deadlineSchedule`, with the context of the caller cancelled. -/
def cancelSchedule : List Action :=
  [Action.launcherStarts, Action.dialFails, Action.ctxDone ctxCanceled,
    Action.selectCtxDone, Action.sleepCtxDone, Action.closeWaitComplete, Action.wgWaitReturns]

/-- In a schedule no dial succeeds and the second goroutine does not take a
result of the launch. -/
def calm (acts : List Action) : Prop :=
  ∀ a ∈ acts, a ≠ Action.dialSucceeds ∧ a ≠ Action.selectErrCh

/-- While no dial succeeds and the second goroutine takes no result of the
launch: launchErr is nil, the derived context is cancelled exactly when the
second goroutine is past its select, which is only once the context of the
caller is done, and the main thread leaves WaitForGuest, and returns, with
the error of the cancelled derived context only. -/
def cancelInv (s : AsyncState) : Prop :=
  s.launchErr = none ∧
    (s.localDone = true → s.selected = true) ∧
    (s.localDone = true → s.ctxErr ≠ none) ∧
    (s.selected = true → s.localDone = true) ∧
    (s.waitCompleteClosed = true → s.localDone = true) ∧
    (∀ err, s.main = MainPc.waited err → s.localDone = true) ∧
    (∀ err, s.main = MainPc.waited err → err = some ctxCanceled) ∧
    (∀ err, s.main = MainPc.closed err → s.localDone = true) ∧
    (∀ err, s.main = MainPc.closed err → err = some ctxCanceled) ∧
    (∀ res, s.main = MainPc.returned res → s.selected = true) ∧
    (∀ res, s.main = MainPc.returned res → res = some ctxCanceled)

/-- A schedule that takes a state to the return of the main thread once the
context of the caller is done, while the command keeps running and no dial
succeeds: the second goroutine takes the end of the context, and the main
thread goes through a failed dial, the cancellation of the derived context,
the close of waitCompleteCh and `wg.Wait()`. -/
def cancelCompletion (s : AsyncState) : List Action :=
  (if s.selected = true then [] else [Action.selectCtxDone]) ++
  (match s.main with
    | MainPc.dialing =>
      [Action.dialFails, Action.sleepCtxDone, Action.closeWaitComplete, Action.wgWaitReturns]
    | MainPc.sleeping => [Action.sleepCtxDone, Action.closeWaitComplete, Action.wgWaitReturns]
    | MainPc.waited _ => [Action.closeWaitComplete, Action.wgWaitReturns]
    | MainPc.closed _ => [Action.wgWaitReturns]
    | MainPc.returned _ => [])

/-- Both values the functions return have the form of an append to the list
given: the error does not depend on the list, and on success the list returned
is the list given followed by what is returned for the nil list. -/
def AppendOnly (f : List String → Result) : Prop :=
  ∀ a, (f a).2 = (f []).2 ∧ ((f []).2 = none → (f a).1 = a ++ (f []).1)

end Crosvm

namespace Qemu

/-! ## The device name of a network device (qemu_generic.go, qemu_s390x.go) -/

/-- Modelled from the spec: the type `NetDeviceType` and its constants are
declared in a file of the package that is not among the sources; the six
constants are those the switch of QemuDeviceParam names, distinct from one
another as the cases of a Go switch are, and `other` is any other value. -/
inductive NetDeviceType
  | TAP
  | MACVTAP
  | IPVTAP
  | VETHTAP
  | VFIO
  | VHOSTUSER
  | other (tag : String)
  deriving DecidableEq, Repr

/-- DeviceDriver is the device driver string (`type DeviceDriver string`,
declared with NetDeviceType). -/
abbrev DeviceDriver := String

namespace Generic

/-- VirtioNet is the virt-io networking device driver (qemu_generic.go). -/
def VirtioNet : DeviceDriver := "virtio-net"

/-- Vfio is the vfio driver (qemu_generic.go). -/
def Vfio : String := "vfio-pci"

/-- QemuDeviceParam (qemu_generic.go, lines 80-97). -/
def QemuDeviceParam (n : NetDeviceType) : String :=
  match n with
  | NetDeviceType.TAP => VirtioNet
  | NetDeviceType.MACVTAP => VirtioNet
  | NetDeviceType.IPVTAP => VirtioNet
  | NetDeviceType.VETHTAP => VirtioNet
  | NetDeviceType.VFIO => Vfio
  | NetDeviceType.VHOSTUSER => ""
  | _ => ""

end Generic

namespace S390x

/-- VirtioNet is the virt-io networking device driver (qemu_s390x.go). -/
def VirtioNet : DeviceDriver := "virtio-net"

/-- Vfio is the vfio driver (qemu_s390x.go). -/
def Vfio : DeviceDriver := "vfio-ccw"

/-- QemuDeviceParam (qemu_s390x.go, lines 75-92). -/
def QemuDeviceParam (n : NetDeviceType) : String :=
  match n with
  | NetDeviceType.TAP => VirtioNet
  | NetDeviceType.MACVTAP => VirtioNet
  | NetDeviceType.IPVTAP => VirtioNet
  | NetDeviceType.VETHTAP => VirtioNet
  | NetDeviceType.VFIO => Vfio
  | NetDeviceType.VHOSTUSER => ""
  | _ => ""

end S390x

/-- The string ends in "-pci". -/
def endsInPci (s : String) : Prop := "-pci".data <:+ s.data

instance (s : String) : Decidable (endsInPci s) := by unfold endsInPci; infer_instance

end Qemu

namespace Crosvm

/-! ## Lemmas on the formatters -/

theorem smp_appendArgs_eq (s : SMP) (a : List String) :
    s.appendArgs a = (a ++ (s.appendArgs []).1, none) := by
  unfold SMP.appendArgs; split <;> simp

theorem memory_appendArgs_eq (m : Memory) (a : List String) :
    m.appendArgs a = (a ++ (m.appendArgs []).1, none) := by
  unfold Memory.appendArgs; split <;> simp

theorem security_appendArgs_eq (s : Security) (a : List String) :
    s.appendArgs a = (a ++ (s.appendArgs []).1, none) := by
  unfold Security.appendArgs; split <;> simp

theorem kernel_appendArgs_of_path (k : Kernel) (a : List String) (h : k.Path ≠ "") :
    k.appendArgs a = (a ++ (if k.Params ≠ "" then ["-p", k.Params] else []) ++ [k.Path], none) := by
  unfold Kernel.appendArgs; rw [if_neg h]; split <;> simp

theorem kernel_appendArgs_append (k : Kernel) (a : List String) (h : k.Path ≠ "") :
    k.appendArgs a = (a ++ (k.appendArgs []).1, none) := by
  simp [kernel_appendArgs_of_path k _ h]

theorem kernel_appendArgs_of_no_path (k : Kernel) (a : List String) (h : k.Path = "") :
    k.appendArgs a = ([], some "Kernel path must be specified") := by
  unfold Kernel.appendArgs; rw [if_pos h]

theorem net_appendArgs_of_unset (n : NetDevice) (a : List String)
    (h : n.MACAddress = "" ∧ n.HostIP = [] ∧ n.NetMask = []) : n.appendArgs a = (a, none) := by
  unfold NetDevice.appendArgs; simp [h.1, h.2.1, h.2.2]

theorem net_appendArgs_of_partly (n : NetDevice) (a : List String) (h : n.partly) :
    n.appendArgs a = ([], some "MACAddress, HostIP and NetMask must be defined") := by
  unfold NetDevice.partly at h
  unfold NetDevice.appendArgs
  simp only [List.length_eq_zero]
  rw [if_neg (by tauto), if_pos (by tauto)]

theorem net_appendArgs_of_all (n : NetDevice) (a : List String)
    (h : n.MACAddress ≠ "" ∧ n.HostIP ≠ [] ∧ n.NetMask ≠ []) :
    n.appendArgs a = (a ++ (["--mac", n.MACAddress, "--host_ip", IP.String n.HostIP,
      "--netmask", IP.String n.NetMask] ++ if n.VHost then ["--vhost-net"] else []), none) := by
  unfold NetDevice.appendArgs
  simp only [List.length_eq_zero]
  rw [if_neg (by tauto), if_neg (by tauto)]
  split <;> simp

theorem net_appendArgs_of_not_partly (n : NetDevice) (a : List String) (h : ¬ n.partly) :
    n.appendArgs a = (a ++ (n.appendArgs []).1, none) := by
  by_cases hu : n.MACAddress = "" ∧ n.HostIP = [] ∧ n.NetMask = []
  · simp [net_appendArgs_of_unset n _ hu]
  · have hall : n.MACAddress ≠ "" ∧ n.HostIP ≠ [] ∧ n.NetMask ≠ [] := by
      unfold NetDevice.partly at h; tauto
    simp [net_appendArgs_of_all n _ hall]

theorem disk_appendArgs_of_ok (d : Disk) (a : List String) (h : d.ok) :
    d.appendArgs a = (a ++ [d.flag, d.Path], none) := by
  obtain ⟨hp, ht⟩ := h
  unfold Disk.appendArgs Disk.flag FlatFile QCOW
  rw [if_neg hp]
  by_cases hf : d.Typ = "flatfile"
  · rw [if_pos hf, if_pos hf]; cases d.Writeable <;> simp
  · have hq : d.Typ = "qcow" := by tauto
    rw [if_neg hf, if_pos hq, if_neg hf]; cases d.Writeable <;> simp

theorem disk_appendArgs_of_not_ok (d : Disk) (a : List String) (h : ¬ d.ok) :
    d.appendArgs a = ([], some d.errorText) := by
  unfold Disk.ok at h
  unfold Disk.appendArgs Disk.errorText FlatFile QCOW
  by_cases hp : d.Path = ""
  · rw [if_pos hp, if_pos hp]
  · rw [if_neg hp, if_neg hp, if_neg (by tauto), if_neg (by tauto)]

theorem appendDisks_eq (ds : List Disk) (a : List String) :
    appendDisks ds a =
      match ds.find? (fun d => ! decide d.ok) with
      | some d => ([], some d.errorText)
      | none => (a ++ ds.flatMap (fun d => (d.appendArgs []).1), none) := by
  induction ds generalizing a with
  | nil => simp [appendDisks]
  | cons d ds ih =>
    by_cases h : d.ok
    · have h0 := disk_appendArgs_of_ok d [] h
      simp only [appendDisks, disk_appendArgs_of_ok d a h, ih, List.find?_cons, h, decide_True,
        Bool.not_true, List.flatMap_cons, h0]
      cases ds.find? (fun d => ! decide d.ok) <;> simp
    · simp [appendDisks, disk_appendArgs_of_not_ok d a h, List.find?_cons, h]

theorem appendFns_cons_ok (f : List String → Result) (fns : List (List String → Result))
    (a t : List String) (h : f a = (a ++ t, none)) :
    appendFns (f :: fns) a = appendFns fns (a ++ t) := by
  simp [appendFns, h]

theorem appendFns_cons_err (f : List String → Result) (fns : List (List String → Result))
    (a x : List String) (e : String) (h : f a = (x, some e)) :
    appendFns (f :: fns) a = ([], some e) := by
  simp [appendFns, h]

theorem config_appendArgs_eq (c : Config) (a : List String) :
    c.appendArgs a =
      match c.firstError with
      | none => (a ++ c.groups, none)
      | some e => ([], some e) := by
  unfold Config.appendArgs Config.firstError Config.groups
  simp only [List.length_eq_zero]
  by_cases h1 : c.RootFS = "" ∧ c.Disks = []
  · simp only [if_pos h1]
  simp only [if_neg h1]
  by_cases h2 : c.Socket = ""
  · simp only [if_pos h2]
  simp only [if_neg h2, appendDisks_eq]
  cases hd : c.Disks.find? (fun d => ! decide d.ok) with
  | some d => simp
  | none =>
    simp only []
    by_cases hn : c.Net.partly
    · rw [appendFns_cons_err _ _ _ _ _ (net_appendArgs_of_partly _ _ hn), if_pos hn]
    rw [appendFns_cons_ok _ _ _ _ (net_appendArgs_of_not_partly _ _ hn),
      appendFns_cons_ok _ _ _ _ (memory_appendArgs_eq _ _),
      appendFns_cons_ok _ _ _ _ (smp_appendArgs_eq _ _),
      appendFns_cons_ok _ _ _ _ (security_appendArgs_eq _ _), if_neg hn]
    by_cases hk : c.Kernel.Path = ""
    · rw [appendFns_cons_err _ _ _ _ _ (kernel_appendArgs_of_no_path _ _ hk), if_pos hk]
    · rw [if_neg hk]
      rw [appendFns_cons_ok _ _ _ _ (kernel_appendArgs_append _ _ hk)]
      by_cases hr : c.RootFS = "" <;> simp [appendFns, hr]

theorem config_appendArgs_snd (c : Config) (a : List String) :
    (c.appendArgs a).2 = c.firstError := by
  rw [config_appendArgs_eq]; cases c.firstError <;> rfl

theorem config_appendArgs_fst_of_ok (c : Config) (a : List String) (h : c.firstError = none) :
    (c.appendArgs a).1 = a ++ c.groups := by
  rw [config_appendArgs_eq, h]

theorem config_appendArgs_fst_of_err (c : Config) (a : List String) (h : c.firstError ≠ none) :
    (c.appendArgs a).1 = [] := by
  rw [config_appendArgs_eq]
  cases hf : c.firstError with
  | none => exact absurd hf h
  | some e => rfl

theorem firstError_eq_none_iff (c : Config) :
    c.firstError = none ↔
      (c.RootFS ≠ "" ∨ c.Disks ≠ []) ∧ c.Socket ≠ "" ∧ (∀ d ∈ c.Disks, d.ok) ∧
        ¬ c.Net.partly ∧ c.Kernel.Path ≠ "" := by
  unfold Config.firstError
  by_cases h1 : c.RootFS = "" ∧ c.Disks = []
  · simp only [if_pos h1]; constructor
    · intro h; cases h
    · rintro ⟨h, -⟩; tauto
  by_cases h2 : c.Socket = ""
  · simp only [if_neg h1, if_pos h2]; constructor
    · intro h; cases h
    · rintro ⟨-, h, -⟩; exact absurd h2 h
  simp only [if_neg h1, if_neg h2]
  cases hd : c.Disks.find? (fun d => ! decide d.ok) with
  | some d =>
    have hmem := List.mem_of_find?_eq_some hd
    have hnot := List.find?_some hd
    simp only [Bool.not_eq_true', decide_eq_false_iff_not] at hnot
    constructor
    · intro h; cases h
    · rintro ⟨-, -, h, -⟩; exact absurd (h d hmem) hnot
  | none =>
    have hall : ∀ d ∈ c.Disks, d.ok := by
      intro d hdm
      have := List.find?_eq_none.mp hd d hdm
      simpa using this
    by_cases hn : c.Net.partly
    · simp only [if_pos hn]; constructor
      · intro h; cases h
      · rintro ⟨-, -, -, h, -⟩; exact absurd hn h
    by_cases hk : c.Kernel.Path = ""
    · simp only [if_neg hn, if_pos hk]; constructor
      · intro h; cases h
      · rintro ⟨-, -, -, -, h⟩; exact absurd hk h
    · simp only [if_neg hn, if_neg hk, true_iff]
      exact ⟨by tauto, h2, hall, hn, hk⟩

theorem net_appendArgs_snd (n : NetDevice) (a : List String) :
    (n.appendArgs a).2 = none ↔ ¬ n.partly := by
  by_cases h : n.partly
  · simp [net_appendArgs_of_partly n a h, h]
  · simp [net_appendArgs_of_not_partly n a h, h]

theorem disk_appendArgs_snd (d : Disk) (a : List String) :
    (d.appendArgs a).2 = none ↔ d.ok := by
  by_cases h : d.ok
  · simp [disk_appendArgs_of_ok d a h, h]
  · simp [disk_appendArgs_of_not_ok d a h, h]

theorem kernel_appendArgs_snd (k : Kernel) (a : List String) :
    (k.appendArgs a).2 = none ↔ k.Path ≠ "" := by
  by_cases h : k.Path = ""
  · simp [kernel_appendArgs_of_no_path k a h, h]
  · simp [kernel_appendArgs_of_path k a h, h]

/-! ## The claims -/

/-- C1: when `Config.appendArgs` succeeds on the nil list, its tokens are, in
this order, "-s" and the socket, "-r" and the root filesystem if one is given,
the tokens of each disk in the order of `Disks`, then the network, memory, CPU,
security and kernel tokens, each group being what the formatter of that
sub-configuration appends to the empty list (and each of these formatters
succeeds). -/
theorem appendArgs_token_order (c : Config) (h : (c.appendArgs []).2 = none) :
    (c.appendArgs []).1 =
        ["-s", c.Socket] ++ (if c.RootFS ≠ "" then ["-r", c.RootFS] else []) ++
          c.Disks.flatMap (fun d => (d.appendArgs []).1) ++
          (c.Net.appendArgs []).1 ++ (c.Memory.appendArgs []).1 ++ (c.SMP.appendArgs []).1 ++
          (c.Sec.appendArgs []).1 ++ (c.Kernel.appendArgs []).1 ∧
      (∀ d ∈ c.Disks, (d.appendArgs []).2 = none) ∧ (c.Net.appendArgs []).2 = none ∧
      (c.Memory.appendArgs []).2 = none ∧ (c.SMP.appendArgs []).2 = none ∧
      (c.Sec.appendArgs []).2 = none ∧ (c.Kernel.appendArgs []).2 = none := by
  rw [config_appendArgs_snd] at h
  obtain ⟨-, -, hd, hn, hk⟩ := (firstError_eq_none_iff c).mp h
  refine ⟨?_, ?_, ?_, ?_, ?_, ?_, ?_⟩
  · rw [config_appendArgs_fst_of_ok c [] h]; rfl
  · intro d hdm; exact (disk_appendArgs_snd d []).mpr (hd d hdm)
  · exact (net_appendArgs_snd _ []).mpr hn
  · rw [memory_appendArgs_eq]
  · rw [smp_appendArgs_eq]
  · rw [security_appendArgs_eq]
  · exact (kernel_appendArgs_snd _ []).mpr hk

/-- Witness of C1: the order of the tokens of `fullCfg`. -/
theorem appendArgs_token_order_witness :
    (fullCfg.appendArgs []).2 = none ∧
      (fullCfg.appendArgs []).1 =
        ["-s", "/run/user/1000/crosvm.sock"] ++ ["-r", "crosvm/rootfs.ext4"] ++
          (["--rwqcow", "image.qcow"] ++ ["--disk", "image.ext4"]) ++
          ["--mac", "AA:BB:CC:00:00:12", "--host_ip", "192.168.30.1", "--netmask",
            "255.255.255.0", "--vhost-net"] ++
          ["-m", "1024"] ++ ["-c", "2"] ++ ["--disable-sandbox"] ++
          ["-p", "ip=192.168.30.2::192.168.30.1:255.255.255.0:crosvm:eth0",
            "linux/arch/x86/boot/compressed/vmlinux.bin"] :=
  ⟨by decide, (appendArgs_token_order fullCfg (by decide)).1.trans (by decide)⟩

/-- C2: when `Config.appendArgs` succeeds, on any starting list, the result is
the starting list, the tokens of the earlier formatters, and then those of the
kernel formatter: "-p", `Kernel.Params` and `Kernel.Path` if `Params` is
non-empty, the single token `Kernel.Path` if it is empty; so the last token is
`Kernel.Path`, preceded by "-p" and `Params` when `Params` is non-empty. -/
theorem appendArgs_kernel_last (c : Config) (a : List String)
    (h : (c.appendArgs a).2 = none) :
    (c.appendArgs a).1.getLast? = some c.Kernel.Path ∧
      (c.Kernel.Params ≠ "" →
        (c.appendArgs a).1 =
          a ++ c.beforeKernel ++ ["-p", c.Kernel.Params, c.Kernel.Path] ∧
        c.Kernel.appendArgs [] = (["-p", c.Kernel.Params, c.Kernel.Path], none)) ∧
      (c.Kernel.Params = "" →
        (c.appendArgs a).1 = a ++ c.beforeKernel ++ [c.Kernel.Path] ∧
        c.Kernel.appendArgs [] = ([c.Kernel.Path], none)) := by
  rw [config_appendArgs_snd] at h
  obtain ⟨-, -, -, -, hk⟩ := (firstError_eq_none_iff c).mp h
  have hk0 := kernel_appendArgs_of_path c.Kernel [] hk
  have hr : (c.appendArgs a).1 = a ++ c.beforeKernel ++ (c.Kernel.appendArgs []).1 := by
    rw [config_appendArgs_fst_of_ok c a h]
    simp [Config.groups, Config.beforeKernel]
  refine ⟨?_, ?_, ?_⟩
  · rw [hr, hk0]; simp
  · intro hp; rw [hr, hk0]; simp [hp]
  · intro hp; rw [hr, hk0]; simp [hp]

/-- Witness of C2: the kernel tokens of the first configuration of
TestConfigGood (with parameters) appended to a non-empty starting list, and
those of the minimal configuration (without parameters). -/
theorem appendArgs_kernel_last_witness :
    ((testCfg.appendArgs ["run"]).2 = none ∧
        (testCfg.appendArgs ["run"]).1.getLast? = some testCfg.Kernel.Path ∧
        testCfg.Kernel.Params ≠ "" ∧
        (testCfg.appendArgs ["run"]).1 =
          ["run"] ++ testCfg.beforeKernel ++
            ["-p", testCfg.Kernel.Params, testCfg.Kernel.Path] ∧
        testCfg.Kernel.appendArgs [] =
          (["-p", testCfg.Kernel.Params, testCfg.Kernel.Path], none)) ∧
      ((minimalCfg.appendArgs []).2 = none ∧ minimalCfg.Kernel.Params = "" ∧
        (minimalCfg.appendArgs []).1 = [] ++ minimalCfg.beforeKernel ++ [minimalCfg.Kernel.Path] ∧
        minimalCfg.Kernel.appendArgs [] = ([minimalCfg.Kernel.Path], none)) :=
  ⟨⟨by decide, (appendArgs_kernel_last testCfg ["run"] (by decide)).1, by decide,
      (appendArgs_kernel_last testCfg ["run"] (by decide)).2.1 (by decide)⟩,
    ⟨by decide, by decide,
      (appendArgs_kernel_last minimalCfg [] (by decide)).2.2 (by decide)⟩⟩

/-- C3: `Config.appendArgs` succeeds if and only if a root filesystem or at
least one disk is given, the socket is given, every disk has a path and the
type "flatfile" or "qcow", the network device has none or all three of
MACAddress, HostIP and NetMask, and the kernel path is given. So the empty
configuration fails, the minimal one (root filesystem, socket and kernel path)
succeeds, a disk without a path makes it fail, and so does a network device
with MACAddress and NetMask but no HostIP. -/
theorem appendArgs_succeeds_iff :
    (∀ (c : Config) (a : List String),
      (c.appendArgs a).2 = none ↔
        (c.RootFS ≠ "" ∨ c.Disks ≠ []) ∧ c.Socket ≠ "" ∧
        (∀ d ∈ c.Disks, d.Path ≠ "" ∧ (d.Typ = "flatfile" ∨ d.Typ = "qcow")) ∧
        ((c.Net.MACAddress = "" ∧ c.Net.HostIP = [] ∧ c.Net.NetMask = []) ∨
          (c.Net.MACAddress ≠ "" ∧ c.Net.HostIP ≠ [] ∧ c.Net.NetMask ≠ [])) ∧
        c.Kernel.Path ≠ "") ∧
      (({} : Config).appendArgs []).2 ≠ none ∧
      (minimalCfg.appendArgs []).2 = none ∧
      ({ minimalCfg with Disks := [{ Typ := QCOW, Writeable := true }] }.appendArgs []).2
        ≠ none ∧
      ({ minimalCfg with
          Net := { MACAddress := "AA:BB:CC:00:00:12", NetMask := [255, 255, 255, 0] }
        }.appendArgs []).2 ≠ none := by
  refine ⟨?_, by decide, by decide, by decide, by decide⟩
  intro c a
  rw [config_appendArgs_snd, firstError_eq_none_iff]
  unfold NetDevice.partly Disk.ok
  constructor
  · rintro ⟨h1, h2, h3, h4, h5⟩; exact ⟨h1, h2, h3, by tauto, h5⟩
  · rintro ⟨h1, h2, h3, h4, h5⟩; exact ⟨h1, h2, h3, by tauto, h5⟩

/-- C4: the error `Config.appendArgs` returns is that of the first failing
check, in the order root filesystem or disks, socket, disks in their order
(path, then type), network device, kernel path, with the message of that
check; it is `none` exactly when no check fails. -/
theorem appendArgs_error_is_first (c : Config) (a : List String) :
    (c.appendArgs a).2 = c.firstError :=
  config_appendArgs_snd c a

/-- C5: a configuration with no root filesystem and no disks fails on every
starting list and returns the nil list with the error; and whenever
`Config.appendArgs` fails, the list it returns is nil. -/
theorem appendArgs_failure_emits_nothing (c : Config) (a : List String) :
    (c.RootFS = "" → c.Disks = [] →
      c.appendArgs a = ([], some "No rootfs or disks specified")) ∧
      ((c.appendArgs a).2 ≠ none → (c.appendArgs a).1 = []) := by
  constructor
  · intro h1 h2
    rw [config_appendArgs_eq]
    simp [Config.firstError, h1, h2]
  · intro h
    rw [config_appendArgs_snd] at h
    exact config_appendArgs_fst_of_err c a h

/-- Witness of C5: a configuration without root filesystem and disks, whose
other fields are set, on a non-empty starting list. -/
theorem appendArgs_failure_emits_nothing_witness :
    noRootCfg.RootFS = "" ∧ noRootCfg.Disks = [] ∧
      noRootCfg.appendArgs ["run"] = ([], some "No rootfs or disks specified") ∧
      (noKernelCfg.appendArgs ["run"]).2 ≠ none ∧ (noKernelCfg.appendArgs ["run"]).1 = [] :=
  ⟨by decide, by decide,
    (appendArgs_failure_emits_nothing noRootCfg ["run"]).1 (by decide) (by decide),
    by decide, (appendArgs_failure_emits_nothing noKernelCfg ["run"]).2 (by decide)⟩

/-- Counterexample to C6: the third configuration of TestConfigGood has a
root filesystem and two disks, and `Config.appendArgs` succeeds on it. -/
theorem appendArgs_rootfs_and_disks_succeeds :
    testCfgDisks.RootFS ≠ "" ∧ testCfgDisks.Disks ≠ [] ∧
      testCfgDisks.appendArgs [] =
        (["-s", "/run/user/1000/crosvm.sock", "-r", "crosvm/rootfs.ext4",
          "--rwqcow", "image.qcow", "--disk", "image.ext4",
          "-u", "--seccomp-policy-dir", "secdir",
          "-p", "ip=192.168.30.2::192.168.30.1:255.255.255.0:crosvm:eth0",
          "linux/arch/x86/boot/compressed/vmlinux.bin"], none) := by
  decide

/-- C6, amended: `Config.appendArgs` succeeds only if at least one of a root
filesystem and a disk is given, and fails when neither is; when both are given
it succeeds exactly when the other checks (socket, disks, network device,
kernel path) pass. -/
theorem appendArgs_needs_rootfs_or_disk (c : Config) (a : List String) :
    ((c.appendArgs a).2 = none → c.RootFS ≠ "" ∨ c.Disks ≠ []) ∧
      (c.RootFS = "" → c.Disks = [] → (c.appendArgs a).2 ≠ none) ∧
      (c.RootFS ≠ "" → c.Disks ≠ [] →
        ((c.appendArgs a).2 = none ↔
          c.Socket ≠ "" ∧ (∀ d ∈ c.Disks, d.ok) ∧ ¬ c.Net.partly ∧ c.Kernel.Path ≠ "")) := by
  have key := firstError_eq_none_iff c
  rw [config_appendArgs_snd]
  refine ⟨fun h => (key.mp h).1, ?_, ?_⟩
  · intro h1 h2 h; rcases (key.mp h).1 with h | h
    · exact h h1
    · exact h h2
  · intro h1 _
    constructor
    · intro h; exact (key.mp h).2
    · intro h; exact key.mpr ⟨Or.inl h1, h⟩

/-- Witness of C6, amended: the minimal configuration succeeds with a root
filesystem only, the empty configuration fails, and the configuration with a
root filesystem and two disks passes the other checks and succeeds. -/
theorem appendArgs_needs_rootfs_or_disk_witness :
    ((minimalCfg.appendArgs []).2 = none ∧
        (minimalCfg.RootFS ≠ "" ∨ minimalCfg.Disks ≠ [])) ∧
      (noRootCfg.RootFS = "" ∧ noRootCfg.Disks = [] ∧ (noRootCfg.appendArgs []).2 ≠ none) ∧
      (testCfgDisks.RootFS ≠ "" ∧ testCfgDisks.Disks ≠ [] ∧
        ((testCfgDisks.appendArgs []).2 = none ↔
          testCfgDisks.Socket ≠ "" ∧ (∀ d ∈ testCfgDisks.Disks, d.ok) ∧
            ¬ testCfgDisks.Net.partly ∧ testCfgDisks.Kernel.Path ≠ "")) :=
  ⟨⟨by decide, (appendArgs_needs_rootfs_or_disk minimalCfg []).1 (by decide)⟩,
    ⟨by decide, by decide,
      (appendArgs_needs_rootfs_or_disk noRootCfg []).2.1 (by decide) (by decide)⟩,
    ⟨by decide, by decide,
      (appendArgs_needs_rootfs_or_disk testCfgDisks []).2.2 (by decide) (by decide)⟩⟩

/-- C7: a configuration without a kernel path fails on every starting list,
whatever its other fields are, and returns no tokens; and `Kernel.appendArgs`
fails on every starting list when the path is empty, whether or not the
parameters are set. -/
theorem appendArgs_fails_without_kernel_path (c : Config) (k : Kernel) (a b : List String) :
    (c.Kernel.Path = "" → ∃ e, c.appendArgs a = ([], some e)) ∧
      (k.Path = "" → k.appendArgs b = ([], some "Kernel path must be specified")) := by
  constructor
  · intro h
    have hne : c.firstError ≠ none := by
      intro hn
      exact ((firstError_eq_none_iff c).mp hn).2.2.2.2 h
    rw [config_appendArgs_eq]
    cases hf : c.firstError with
    | none => exact absurd hf hne
    | some e => exact ⟨e, rfl⟩
  · intro h; exact kernel_appendArgs_of_no_path k b h

/-- Witness of C7: the minimal configuration without its kernel path, and the
empty configuration, on a non-empty list; a kernel with parameters only. -/
theorem appendArgs_fails_without_kernel_path_witness :
    noKernelCfg.Kernel.Path = "" ∧ (∃ e, noKernelCfg.appendArgs ["run"] = ([], some e)) ∧
      ({} : Config).Kernel.Path = "" ∧ (∃ e, ({} : Config).appendArgs ["run"] = ([], some e)) ∧
      noPathKernel.Path = "" ∧ noPathKernel.Params ≠ "" ∧
      noPathKernel.appendArgs ["run"] = ([], some "Kernel path must be specified") :=
  ⟨by decide, (appendArgs_fails_without_kernel_path noKernelCfg noPathKernel ["run"] ["run"]).1
      (by decide),
    by decide, (appendArgs_fails_without_kernel_path {} noPathKernel ["run"] ["run"]).1
      (by decide),
    by decide, by decide,
    (appendArgs_fails_without_kernel_path noKernelCfg noPathKernel ["run"] ["run"]).2
      (by decide)⟩

/-- C8: `NetDevice.appendArgs` fails if and only if at least one but not all
three of MACAddress, HostIP and NetMask are set, that is when exactly one or
exactly two of them are; when none is set it succeeds and returns the starting
list unchanged, whatever VHost is. -/
theorem NetDevice.appendArgs_fails_iff (n : NetDevice) (a : List String) :
    ((n.appendArgs a).2 ≠ none ↔
        (n.MACAddress ≠ "" ∨ n.HostIP ≠ [] ∨ n.NetMask ≠ []) ∧
          ¬ (n.MACAddress ≠ "" ∧ n.HostIP ≠ [] ∧ n.NetMask ≠ [])) ∧
      ((n.appendArgs a).2 ≠ none ↔ n.numSet = 1 ∨ n.numSet = 2) ∧
      (n.MACAddress = "" → n.HostIP = [] → n.NetMask = [] → n.appendArgs a = (a, none)) := by
  have h1 : (n.appendArgs a).2 ≠ none ↔ n.partly := by
    rw [Ne, net_appendArgs_snd, not_not]
  refine ⟨h1, ?_, fun hm hh hk => net_appendArgs_of_unset n a ⟨hm, hh, hk⟩⟩
  rw [h1]
  unfold NetDevice.partly NetDevice.numSet
  by_cases hm : n.MACAddress = "" <;> by_cases hh : n.HostIP = [] <;>
    by_cases hk : n.NetMask = [] <;> simp [hm, hh, hk]

/-- Witness of C8: the device of TestConfigBad (two of the three set) and a
device with a MAC address only fail; a device with nothing set but VHost
succeeds and leaves the list as it is. -/
theorem NetDevice.appendArgs_fails_iff_witness :
    (noHostNet.numSet = 2 ∧ (noHostNet.appendArgs ["run"]).2 ≠ none) ∧
      (macOnlyNet.numSet = 1 ∧ (macOnlyNet.appendArgs ["run"]).2 ≠ none) ∧
      (vhostOnlyNet.VHost = true ∧ vhostOnlyNet.MACAddress = "" ∧ vhostOnlyNet.HostIP = [] ∧
        vhostOnlyNet.NetMask = [] ∧ vhostOnlyNet.appendArgs ["run"] = (["run"], none)) :=
  ⟨⟨by decide,
      (NetDevice.appendArgs_fails_iff noHostNet ["run"]).2.1.mpr (Or.inr (by decide))⟩,
    ⟨by decide,
      (NetDevice.appendArgs_fails_iff macOnlyNet ["run"]).2.1.mpr (Or.inl (by decide))⟩,
    ⟨by decide, by decide, by decide, by decide,
      (NetDevice.appendArgs_fails_iff vhostOnlyNet ["run"]).2.2 (by decide) (by decide)
        (by decide)⟩⟩

/-- C9: with MACAddress, HostIP and NetMask all set, `NetDevice.appendArgs`
succeeds and appends "--mac", the MAC address, "--host_ip", the text of the
host address, "--netmask", the netmask written as an IP address, and then
"--vhost-net" exactly when VHost is true: 7 tokens with VHost, 6 without. The
mask 255.255.255.0 is written "255.255.255.0", while its form as a mask is the
hexadecimal "ffffff00". -/
theorem NetDevice.appendArgs_tokens (n : NetDevice) (a : List String)
    (hm : n.MACAddress ≠ "") (hh : n.HostIP ≠ []) (hk : n.NetMask ≠ []) :
    n.appendArgs a =
        (a ++ ["--mac", n.MACAddress, "--host_ip", IP.String n.HostIP,
            "--netmask", IP.String n.NetMask] ++
          (if n.VHost = true then ["--vhost-net"] else []), none) ∧
      (n.appendArgs a).1.length = a.length + (if n.VHost = true then 7 else 6) ∧
      IP.String [255, 255, 255, 0] = "255.255.255.0" ∧
      IPMask.String [255, 255, 255, 0] = "ffffff00" := by
  have h := net_appendArgs_of_all n a ⟨hm, hh, hk⟩
  refine ⟨?_, ?_, by decide, by decide⟩
  · rw [h]; simp
  · rw [h]; cases n.VHost <;> simp

/-- Witness of C9: the network device of TestConfigGood, with VHost, and the
same device without it. -/
theorem NetDevice.appendArgs_tokens_witness :
    (testNet.appendArgs ["run"] =
        (["run", "--mac", "AA:BB:CC:00:00:12", "--host_ip", "192.168.30.1",
          "--netmask", "255.255.255.0", "--vhost-net"], none) ∧
      (testNet.appendArgs ["run"]).1.length = 1 + 7) ∧
    ({ testNet with VHost := false }.appendArgs [] =
        (["--mac", "AA:BB:CC:00:00:12", "--host_ip", "192.168.30.1",
          "--netmask", "255.255.255.0"], none) ∧
      ({ testNet with VHost := false }.appendArgs []).1.length = 0 + 6) :=
  ⟨⟨(NetDevice.appendArgs_tokens testNet ["run"] (by decide) (by decide) (by decide)).1.trans
        (by decide),
      (NetDevice.appendArgs_tokens testNet ["run"] (by decide) (by decide) (by decide)).2.1⟩,
    ⟨(NetDevice.appendArgs_tokens { testNet with VHost := false } [] (by decide) (by decide)
        (by decide)).1.trans (by decide),
      (NetDevice.appendArgs_tokens { testNet with VHost := false } [] (by decide) (by decide)
        (by decide)).2.1⟩⟩

/-- C10: for a disk with a path and a recognized type, `Disk.appendArgs`
succeeds and appends two tokens, the flag and the path; the flag is "--disk"
for a read-only flat file, "--rwdisk" for a writable one, "--qcow" for a
read-only qcow image and "--rwqcow" for a writable one; two such disks with
the same flag have the same type and the same writability. -/
theorem Disk.appendArgs_flag (d e : Disk) (a : List String)
    (hp : d.Path ≠ "") (ht : d.Typ = FlatFile ∨ d.Typ = QCOW)
    (hp' : e.Path ≠ "") (ht' : e.Typ = FlatFile ∨ e.Typ = QCOW) :
    (∃ flag, d.appendArgs a = (a ++ [flag, d.Path], none)) ∧
      (d.Typ = FlatFile → d.Writeable = false →
        d.appendArgs a = (a ++ ["--disk", d.Path], none)) ∧
      (d.Typ = FlatFile → d.Writeable = true →
        d.appendArgs a = (a ++ ["--rwdisk", d.Path], none)) ∧
      (d.Typ = QCOW → d.Writeable = false →
        d.appendArgs a = (a ++ ["--qcow", d.Path], none)) ∧
      (d.Typ = QCOW → d.Writeable = true →
        d.appendArgs a = (a ++ ["--rwqcow", d.Path], none)) ∧
      ((d.appendArgs []).1.head? = (e.appendArgs []).1.head? →
        d.Typ = e.Typ ∧ d.Writeable = e.Writeable) := by
  unfold FlatFile QCOW at *
  have hd : d.ok := ⟨hp, ht⟩
  have he : e.ok := ⟨hp', ht'⟩
  have hda := disk_appendArgs_of_ok d a hd
  refine ⟨⟨d.flag, hda⟩, ?_, ?_, ?_, ?_, ?_⟩
  · intro h1 h2; rw [hda]; simp [Disk.flag, h1, h2]
  · intro h1 h2; rw [hda]; simp [Disk.flag, h1, h2]
  · intro h1 h2; rw [hda]; simp [Disk.flag, h1, h2]
  · intro h1 h2; rw [hda]; simp [Disk.flag, h1, h2]
  · rw [disk_appendArgs_of_ok d [] hd, disk_appendArgs_of_ok e [] he]
    simp only [List.nil_append, List.head?_cons, Option.some.injEq, Disk.flag]
    rcases ht with h1 | h1 <;> rcases ht' with h2 | h2 <;>
      cases hw : d.Writeable <;> cases hw' : e.Writeable <;> simp [h1, h2]

/-- Witness of C10: the two disks of TestConfigGood, a writable flat file and a
read-only qcow image give the four flags; two writable qcow images share
theirs. -/
theorem Disk.appendArgs_flag_witness :
    flatDisk.appendArgs ["run"] = (["run"] ++ ["--disk", "image.ext4"], none) ∧
      rwFlatDisk.appendArgs ["run"] = (["run"] ++ ["--rwdisk", "data.img"], none) ∧
      roQcowDisk.appendArgs ["run"] = (["run"] ++ ["--qcow", "base.qcow"], none) ∧
      qcowDisk.appendArgs ["run"] = (["run"] ++ ["--rwqcow", "image.qcow"], none) ∧
      (qcowDisk.appendArgs []).1.head? = (qcowDisk2.appendArgs []).1.head? ∧
      qcowDisk.Typ = qcowDisk2.Typ ∧ qcowDisk.Writeable = qcowDisk2.Writeable :=
  ⟨(Disk.appendArgs_flag flatDisk qcowDisk ["run"] (by decide) (by decide) (by decide)
      (by decide)).2.1 (by decide) (by decide),
    (Disk.appendArgs_flag rwFlatDisk qcowDisk ["run"] (by decide) (by decide) (by decide)
      (by decide)).2.2.1 (by decide) (by decide),
    (Disk.appendArgs_flag roQcowDisk qcowDisk ["run"] (by decide) (by decide) (by decide)
      (by decide)).2.2.2.1 (by decide) (by decide),
    (Disk.appendArgs_flag qcowDisk qcowDisk2 ["run"] (by decide) (by decide) (by decide)
      (by decide)).2.2.2.2.1 (by decide) (by decide),
    by decide,
    (Disk.appendArgs_flag qcowDisk qcowDisk2 ["run"] (by decide) (by decide) (by decide)
      (by decide)).2.2.2.2.2 (by decide)⟩

/-- Counterexample to C11: a disk of the unrecognized type "raw" that has no
path fails with the error of the missing path, whose text does not contain
"raw". -/
theorem appendArgs_unknown_type_no_path :
    rawNoPathDisk.Typ ≠ FlatFile ∧ rawNoPathDisk.Typ ≠ QCOW ∧
      rawNoPathDisk.appendArgs [] = ([], some "Path not specified for disk") ∧
      ¬ (rawNoPathDisk.Typ.data <:+: "Path not specified for disk".data) := by
  decide

/-- C11, amended: a disk whose type is neither "flatfile" nor "qcow" always
makes `Disk.appendArgs` fail, with no tokens; when its path is given the error
is "Unknown disk type " followed by the type, so its text contains the type;
when its path is empty the error is that of the missing path, which is checked
first. -/
theorem Disk.appendArgs_unknown_type (d : Disk) (a : List String)
    (ht : d.Typ ≠ FlatFile) (ht' : d.Typ ≠ QCOW) :
    (∃ e, d.appendArgs a = ([], some e)) ∧
      (d.Path ≠ "" →
        d.appendArgs a = ([], some ("Unknown disk type " ++ d.Typ)) ∧
        d.Typ.data <:+: ("Unknown disk type " ++ d.Typ).data) ∧
      (d.Path = "" → d.appendArgs a = ([], some "Path not specified for disk")) := by
  unfold FlatFile QCOW at *
  have hno : ¬ d.ok := fun h => h.2.elim ht ht'
  have h := disk_appendArgs_of_not_ok d a hno
  refine ⟨⟨_, h⟩, ?_, ?_⟩
  · intro hp
    refine ⟨by rw [h]; simp [Disk.errorText, hp], ?_⟩
    rw [String.data_append]
    exact (List.suffix_append _ _).isInfix
  · intro hp; rw [h]; simp [Disk.errorText, hp]

/-- Witness of C11, amended: the disk of type "raw" with a path, and the one
without. -/
theorem Disk.appendArgs_unknown_type_witness :
    (rawDisk.appendArgs ["run"] = ([], some "Unknown disk type raw") ∧
        "raw".data <:+: "Unknown disk type raw".data) ∧
      rawNoPathDisk.appendArgs ["run"] = ([], some "Path not specified for disk") :=
  ⟨(Disk.appendArgs_unknown_type rawDisk ["run"] (by decide) (by decide)).2.1 (by decide),
    (Disk.appendArgs_unknown_type rawNoPathDisk ["run"] (by decide) (by decide)).2.2
      (by decide)⟩

/-- C12: `Security.appendArgs` never fails; with DisableSandbox it appends the
one token "--disable-sandbox", whatever SeccompPolicyDir is; without it, the
three tokens "-u", "--seccomp-policy-dir" and SeccompPolicyDir, also when that
is the empty string. -/
theorem Security.appendArgs_xor (c : Security) (a : List String) :
    (c.appendArgs a).2 = none ∧
      (c.DisableSandbox = true → c.appendArgs a = (a ++ ["--disable-sandbox"], none)) ∧
      (c.DisableSandbox = false →
        c.appendArgs a = (a ++ ["-u", "--seccomp-policy-dir", c.SeccompPolicyDir], none)) ∧
      (c.DisableSandbox = false → c.SeccompPolicyDir = "" →
        c.appendArgs a = (a ++ ["-u", "--seccomp-policy-dir", ""], none)) := by
  unfold Security.appendArgs
  cases hs : c.DisableSandbox <;> simp

/-- Witness of C12: sandbox disabled with a directory set, sandbox enabled with
a directory, and sandbox enabled with the empty directory. -/
theorem Security.appendArgs_xor_witness :
    ({ DisableSandbox := true, SeccompPolicyDir := "secdir" } : Security).appendArgs ["run"]
        = (["run"] ++ ["--disable-sandbox"], none) ∧
      ({ SeccompPolicyDir := "secdir" } : Security).appendArgs ["run"]
        = (["run"] ++ ["-u", "--seccomp-policy-dir", "secdir"], none) ∧
      ({} : Security).appendArgs ["run"] = (["run"] ++ ["-u", "--seccomp-policy-dir", ""], none) :=
  ⟨(Security.appendArgs_xor { DisableSandbox := true, SeccompPolicyDir := "secdir" }
      ["run"]).2.1 (by decide),
    (Security.appendArgs_xor { SeccompPolicyDir := "secdir" } ["run"]).2.2.1 (by decide),
    (Security.appendArgs_xor {} ["run"]).2.2.2 (by decide) (by decide)⟩

/-- C13: `Memory.appendArgs` and `SMP.appendArgs` never fail; with Size 0,
respectively CPUs 0, they return the list unchanged; otherwise they append
"-m" and the decimal form of Size, respectively "-c" and the decimal form of
CPUs. -/
theorem appendArgs_memory_smp (m : Memory) (s : SMP) (a : List String) :
    (m.appendArgs a).2 = none ∧ (s.appendArgs a).2 = none ∧
      (m.Size = 0 → m.appendArgs a = (a, none)) ∧
      (s.CPUs = 0 → s.appendArgs a = (a, none)) ∧
      (m.Size ≠ 0 → m.appendArgs a = (a ++ ["-m", toString m.Size], none)) ∧
      (s.CPUs ≠ 0 → s.appendArgs a = (a ++ ["-c", toString s.CPUs], none)) := by
  have hd : ∀ n : Nat, sprintfD n = toString n := fun n => rfl
  unfold Memory.appendArgs SMP.appendArgs
  refine ⟨by split <;> rfl, by split <;> rfl, ?_, ?_, ?_, ?_⟩
  · intro h; simp [h]
  · intro h; simp [h]
  · intro h; rw [if_pos (Nat.pos_of_ne_zero h), hd]
  · intro h; rw [if_pos (Nat.pos_of_ne_zero h), hd]

/-- Witness of C13: the memory and CPU settings of TestConfigGood, and the
unset ones. -/
theorem appendArgs_memory_smp_witness :
    ({} : Memory).appendArgs ["run"] = (["run"], none) ∧
      ({} : SMP).appendArgs ["run"] = (["run"], none) ∧
      ({ Size := 1024 } : Memory).appendArgs ["run"] = (["run"] ++ ["-m", "1024"], none) ∧
      ({ CPUs := 2 } : SMP).appendArgs ["run"] = (["run"] ++ ["-c", "2"], none) :=
  ⟨(appendArgs_memory_smp {} {} ["run"]).2.2.1 (by decide),
    (appendArgs_memory_smp {} {} ["run"]).2.2.2.1 (by decide),
    ((appendArgs_memory_smp { Size := 1024 } { CPUs := 2 } ["run"]).2.2.2.2.1
      (by decide)).trans (by decide),
    ((appendArgs_memory_smp { Size := 1024 } { CPUs := 2 } ["run"]).2.2.2.2.2
      (by decide)).trans (by decide)⟩

/-- C14: on the configuration of the concrete scenario, `Config.appendArgs`
succeeds from the nil list and returns the twelve tokens of the
specification. -/
theorem appendArgs_scenario :
    scenarioCfg.appendArgs [] =
      (["-s", "/tmp/s.sock", "-r", "rootfs.ext4", "--rwqcow", "image.qcow", "-m", "1024",
        "-c", "2", "--disable-sandbox", "vmlinux"], none) := by
  decide

/-- C15: when `Config.appendArgs` fails on the nil list, LaunchCrosvm returns
that error and produces no event: no command is run (and nothing is
logged). -/
theorem LaunchCrosvm_validation_error (proc : Cmd → Option String) (ctx : Context)
    (config : Config) (attr : Option SysProcAttr) (logger : Option Log) (err : String)
    (h : (config.appendArgs []).2 = some err) :
    LaunchCrosvm proc ctx config attr logger = ([], some err) ∧
      invocations (LaunchCrosvm proc ctx config attr logger).1 = [] := by
  have h1 : LaunchCrosvm proc ctx config attr logger = ([], some err) := by
    unfold LaunchCrosvm
    cases hc : config.appendArgs [] with
    | mk l e =>
      rw [hc] at h
      simp only at h
      subst h
      rfl
  exact ⟨h1, by rw [h1]; rfl⟩

/-- Witness of C15: the empty configuration, with a process that would
succeed. -/
theorem LaunchCrosvm_validation_error_witness :
    (({} : Config).appendArgs []).2 = some "No rootfs or disks specified" ∧
      LaunchCrosvm okProc (Context.caller 0) {} (some ⟨7⟩) none =
        ([], some "No rootfs or disks specified") ∧
      invocations (LaunchCrosvm okProc (Context.caller 0) {} (some ⟨7⟩) none).1 = [] :=
  ⟨by decide,
    LaunchCrosvm_validation_error okProc (Context.caller 0) {} (some ⟨7⟩) none _ (by decide)⟩

/-- C16: LaunchCustomCrosvm runs exactly one command, the given path (or
"crosvm" when it is empty) with the arguments "run" followed by the given
ones and with the given attr, and returns its result; and when
`Config.appendArgs` succeeds on the nil list with tokens `t`, LaunchCrosvm
runs exactly one command, `Config.Path` (or "crosvm") with "run" followed by
`t` and the given attr, and returns its result. -/
theorem LaunchCrosvm_invocation (proc : Cmd → Option String) (ctx : Context) (path : String)
    (args : List String) (config : Config) (attr : Option SysProcAttr) (logger : Option Log) :
    (invocations (LaunchCustomCrosvm proc ctx path args attr logger).1 =
          [{ ctx := ctx, name := if path = "" then "crosvm" else path,
             args := "run" :: args, SysProcAttr := attr }] ∧
        (LaunchCustomCrosvm proc ctx path args attr logger).2 =
          proc { ctx := ctx, name := if path = "" then "crosvm" else path,
                 args := "run" :: args, SysProcAttr := attr }) ∧
      (∀ t, config.appendArgs [] = (t, none) →
        invocations (LaunchCrosvm proc ctx config attr logger).1 =
          [{ ctx := ctx, name := if config.Path = "" then "crosvm" else config.Path,
             args := "run" :: t, SysProcAttr := attr }] ∧
        (LaunchCrosvm proc ctx config attr logger).2 =
          proc { ctx := ctx, name := if config.Path = "" then "crosvm" else config.Path,
                 args := "run" :: t, SysProcAttr := attr }) := by
  refine ⟨⟨rfl, rfl⟩, ?_⟩
  intro t h
  unfold LaunchCrosvm
  rw [h]
  exact ⟨rfl, rfl⟩

/-- Witness of C16: the configuration of the concrete scenario, which names no
binary, launched with a process that fails. -/
theorem LaunchCrosvm_invocation_witness :
    scenarioCfg.appendArgs [] =
        (["-s", "/tmp/s.sock", "-r", "rootfs.ext4", "--rwqcow", "image.qcow", "-m", "1024",
          "-c", "2", "--disable-sandbox", "vmlinux"], none) ∧
      invocations (LaunchCrosvm failingProc (Context.caller 0) scenarioCfg (some ⟨7⟩) none).1 =
        [{ ctx := Context.caller 0, name := "crosvm",
           args := ["run", "-s", "/tmp/s.sock", "-r", "rootfs.ext4", "--rwqcow", "image.qcow",
             "-m", "1024", "-c", "2", "--disable-sandbox", "vmlinux"],
           SysProcAttr := some ⟨7⟩ }] ∧
      (LaunchCrosvm failingProc (Context.caller 0) scenarioCfg (some ⟨7⟩) none).2 =
        some "exit status 1" :=
  ⟨by decide,
    (LaunchCrosvm_invocation failingProc (Context.caller 0) "" [] scenarioCfg (some ⟨7⟩)
      none).2 _ (by decide)⟩

/-- C17: with no socket path, ExecuteStop and ExecuteBalloon return the error
"Expected at least one socket path" and produce no event: no command is
run. -/
theorem Execute_requires_socket (proc : Cmd → Option String) (ctx : Context) (path : String)
    (numPages : Int) (attr : Option SysProcAttr) (logger : Option Log) :
    ExecuteStop proc ctx path [] attr logger =
        ([], some "Expected at least one socket path") ∧
      ExecuteBalloon proc ctx path numPages [] attr logger =
        ([], some "Expected at least one socket path") ∧
      invocations (ExecuteStop proc ctx path [] attr logger).1 = [] ∧
      invocations (ExecuteBalloon proc ctx path numPages [] attr logger).1 = [] :=
  ⟨rfl, rfl, rfl, rfl⟩

/-- C18: with at least one socket path, ExecuteStop runs exactly one command
with the arguments "stop" and the sockets in order, ExecuteBalloon exactly one
with the arguments "balloon", the signed decimal form of numPages (with a
leading minus sign when it is negative) and the sockets in order; the binary
is the given path, or "crosvm" when it is empty, the attr is the given one and
the result of the command is returned as it is. -/
theorem Execute_invocation (proc : Cmd → Option String) (ctx : Context) (path : String)
    (numPages : Int) (sockets : List String) (attr : Option SysProcAttr)
    (logger : Option Log) (h : sockets ≠ []) :
    (invocations (ExecuteStop proc ctx path sockets attr logger).1 =
          [{ ctx := ctx, name := if path = "" then "crosvm" else path,
             args := "stop" :: sockets, SysProcAttr := attr }] ∧
        (ExecuteStop proc ctx path sockets attr logger).2 =
          proc { ctx := ctx, name := if path = "" then "crosvm" else path,
                 args := "stop" :: sockets, SysProcAttr := attr }) ∧
      (invocations (ExecuteBalloon proc ctx path numPages sockets attr logger).1 =
          [{ ctx := ctx, name := if path = "" then "crosvm" else path,
             args := "balloon" :: sprintfInt numPages :: sockets, SysProcAttr := attr }] ∧
        (ExecuteBalloon proc ctx path numPages sockets attr logger).2 =
          proc { ctx := ctx, name := if path = "" then "crosvm" else path,
                 args := "balloon" :: sprintfInt numPages :: sockets, SysProcAttr := attr }) ∧
      (0 ≤ numPages → sprintfInt numPages = toString numPages.natAbs) ∧
      (numPages < 0 → sprintfInt numPages = "-" ++ toString numPages.natAbs) := by
  have hl : ¬ sockets.length = 0 := by simpa using h
  have hd : ∀ n : Nat, sprintfD n = toString n := fun n => rfl
  refine ⟨?_, ?_, ?_, ?_⟩
  · unfold ExecuteStop; rw [if_neg hl]; exact ⟨rfl, rfl⟩
  · unfold ExecuteBalloon; rw [if_neg hl]; exact ⟨rfl, rfl⟩
  · intro hn; unfold sprintfInt; rw [if_neg (by omega), hd]
  · intro hn; unfold sprintfInt; rw [if_pos hn, hd]

/-- Witness of C18: stopping two guests with a named binary, and shrinking
their balloons by 64 pages with the default one. -/
theorem Execute_invocation_witness :
    (invocations (ExecuteStop failingProc (Context.caller 0) "/usr/bin/crosvm" ["a.sock", "b.sock"]
          (some ⟨7⟩) none).1 =
        [{ ctx := Context.caller 0, name := "/usr/bin/crosvm",
           args := ["stop", "a.sock", "b.sock"], SysProcAttr := some ⟨7⟩ }] ∧
      (ExecuteStop failingProc (Context.caller 0) "/usr/bin/crosvm" ["a.sock", "b.sock"]
          (some ⟨7⟩) none).2 = some "exit status 1") ∧
    (invocations (ExecuteBalloon okProc (Context.caller 0) "" (-64) ["a.sock", "b.sock"] none
          none).1 =
        [{ ctx := Context.caller 0, name := "crosvm",
           args := ["balloon", "-64", "a.sock", "b.sock"], SysProcAttr := none }] ∧
      (ExecuteBalloon okProc (Context.caller 0) "" (-64) ["a.sock", "b.sock"] none none).2
        = none) :=
  ⟨(Execute_invocation failingProc (Context.caller 0) "/usr/bin/crosvm" 0 ["a.sock", "b.sock"]
      (some ⟨7⟩) none (by decide)).1,
    ⟨((Execute_invocation okProc (Context.caller 0) "" (-64) ["a.sock", "b.sock"] none none
      (by decide)).2.1.1).trans (by decide),
     (Execute_invocation okProc (Context.caller 0) "" (-64) ["a.sock", "b.sock"] none none
      (by decide)).2.1.2⟩⟩

/-! ## Lemmas on the machine of LaunchCrosvmAsync -/

theorem runAsync_append (proc : Cmd → Option String) (x : AsyncArgs) (as bs : List Action)
    (s : AsyncState) :
    runAsync proc x (as ++ bs) s = (runAsync proc x as s).bind (runAsync proc x bs) := by
  induction as generalizing s with
  | nil => rfl
  | cons a as ih =>
    simp only [List.cons_append, runAsync]
    cases step proc x s a with
    | none => rfl
    | some s' => exact ih s'

theorem runAsync_invariant (proc : Cmd → Option String) (x : AsyncArgs)
    (P : AsyncState → Prop) (ok : Action → Prop)
    (hstep : ∀ s a s', P s → ok a → step proc x s a = some s' → P s') :
    ∀ (acts : List Action) (s s' : AsyncState), (∀ a ∈ acts, ok a) → P s →
      runAsync proc x acts s = some s' → P s' := by
  intro acts
  induction acts with
  | nil =>
    intro s s' _ hP h
    simp only [runAsync, Option.some.injEq] at h
    exact h ▸ hP
  | cons a as ih =>
    intro s s' hok hP h
    simp only [runAsync] at h
    cases hs : step proc x s a with
    | none => rw [hs] at h; cases h
    | some s1 =>
      rw [hs] at h
      exact ih s1 s' (fun b hb => hok b (List.mem_cons_of_mem _ hb))
        (hstep s a s1 hP (hok a (List.mem_cons_self _ _)) hs) h

theorem quietInv_step (proc : Cmd → Option String) (x : AsyncArgs) (e : String)
    (hfail : (launcher proc x).2 = some e) (s : AsyncState) (a : Action) (s' : AsyncState)
    (hJ : quietInv (some e) s) (hok : a ≠ Action.dialSucceeds ∧ a.isCtxDone = false)
    (h : step proc x s a = some s') : quietInv (some e) s' := by
  obtain ⟨l, ec, ce, lo, wc, le, sel, m, ev⟩ := s
  unfold quietInv at hJ ⊢
  simp only at hJ
  obtain ⟨h1, h2, h3, h4, h5, h6, h7⟩ := hJ
  cases a <;> simp only [step] at h <;> (repeat' split at h) <;>
    simp only [Option.some.injEq, reduceCtorEq] at h <;> (try subst h) <;>
    simp_all [Action.isCtxDone] <;> (try tauto)

theorem globalInv_step (proc : Cmd → Option String) (x : AsyncArgs) (s : AsyncState)
    (a : Action) (s' : AsyncState) (hJ : globalInv (launcher proc x).2 s) (_hok : True)
    (h : step proc x s a = some s') : globalInv (launcher proc x).2 s' := by
  obtain ⟨l, ec, ce, lo, wc, le, sel, m, ev⟩ := s
  unfold globalInv at hJ ⊢
  simp only at hJ
  obtain ⟨h1, h2, h3⟩ := hJ
  cases a <;> simp only [step] at h <;> (repeat' split at h) <;>
    simp only [Option.some.injEq, reduceCtorEq] at h <;> (try subst h) <;>
    simp_all <;> (try tauto)

theorem takenInv_step (proc : Cmd → Option String) (x : AsyncArgs) (e : String)
    (s : AsyncState) (a : Action) (s' : AsyncState) (hJ : takenInv e s) (_hok : True)
    (h : step proc x s a = some s') : takenInv e s' := by
  obtain ⟨l, ec, ce, lo, wc, le, sel, m, ev⟩ := s
  unfold takenInv at hJ ⊢
  simp only at hJ
  obtain ⟨h1, h2, h3⟩ := hJ
  cases a <;> simp only [step] at h <;> (repeat' split at h) <;>
    simp only [Option.some.injEq, reduceCtorEq] at h <;> (try subst h) <;>
    simp_all <;> (try tauto)

theorem noDialInv_step (proc : Cmd → Option String) (x : AsyncArgs) (e : String)
    (hfail : (launcher proc x).2 = some e) (s : AsyncState) (a : Action) (s' : AsyncState)
    (hJ : globalInv (some e) s ∧ noDialInv e s) (hok : a ≠ Action.dialSucceeds)
    (h : step proc x s a = some s') : globalInv (some e) s' ∧ noDialInv e s' := by
  refine ⟨hfail ▸ globalInv_step proc x s a s' (hfail ▸ hJ.1) trivial h, ?_⟩
  obtain ⟨⟨g1, -, -⟩, hJ⟩ := hJ
  obtain ⟨l, ec, ce, lo, wc, le, sel, m, ev⟩ := s
  unfold noDialInv at hJ ⊢
  simp only at hJ g1
  obtain ⟨h1, h2, h3, h4⟩ := hJ
  cases a <;> simp only [step] at h <;> (repeat' split at h) <;>
    simp only [Option.some.injEq, reduceCtorEq] at h <;> (try subst h) <;>
    simp_all <;> (try tauto)

theorem liveInv_step (proc : Cmd → Option String) (x : AsyncArgs) (e : String)
    (hfail : (launcher proc x).2 = some e) (s : AsyncState) (a : Action) (s' : AsyncState)
    (hJ : quietInv (some e) s ∧ liveInv (some e) s)
    (hok : a ≠ Action.dialSucceeds ∧ a.isCtxDone = false)
    (h : step proc x s a = some s') : quietInv (some e) s' ∧ liveInv (some e) s' := by
  refine ⟨quietInv_step proc x e hfail s a s' hJ.1 hok h, ?_⟩
  obtain ⟨⟨q1, -, q3, q4, -, -, -⟩, hJ⟩ := hJ
  obtain ⟨l, ec, ce, lo, wc, le, sel, m, ev⟩ := s
  unfold liveInv at hJ ⊢
  simp only at hJ q1 q3 q4
  obtain ⟨h1, h2, h3, h4⟩ := hJ
  cases a <;> simp only [step] at h <;> (repeat' split at h) <;>
    simp only [Option.some.injEq, reduceCtorEq] at h <;> (try subst h) <;>
    simp_all [Action.isCtxDone]

theorem step_returned (proc : Cmd → Option String) (x : AsyncArgs) (res : Option String)
    (s : AsyncState) (a : Action) (s' : AsyncState) (hJ : s.main = MainPc.returned res)
    (_hok : True) (h : step proc x s a = some s') : s'.main = MainPc.returned res := by
  obtain ⟨l, ec, ce, lo, wc, le, sel, m, ev⟩ := s
  simp only at hJ
  subst hJ
  cases a <;> simp only [step] at h <;> (repeat' split at h) <;>
    simp only [Option.some.injEq, reduceCtorEq] at h <;> (try subst h) <;>
    simp_all

theorem completion_quiet (s : AsyncState) : quiet (completion s) := by
  obtain ⟨l, ec, ce, lo, wc, le, sel, m, ev⟩ := s
  unfold quiet completion
  cases l <;> cases sel <;> cases m <;> simp [Action.isCtxDone]

theorem completion_returns (proc : Cmd → Option String) (x : AsyncArgs) (e : String)
    (hfail : (launcher proc x).2 = some e) (s : AsyncState)
    (hJ : quietInv (some e) s ∧ liveInv (some e) s) :
    ∃ sf, runAsync proc x (completion s) s = some sf ∧
      sf.main = MainPc.returned (some e) := by
  obtain ⟨l, ec, ce, lo, wc, le, sel, m, ev⟩ := s
  obtain ⟨⟨-, -, q3, -, q5, q6, q7⟩, h1, h2, h3, h4⟩ := hJ
  simp only at q3 q5 q6 q7 h1 h2 h3 h4
  cases sel with
  | true =>
    have hlo : lo = true := h3 rfl
    have hle : le = some e := (q3 hlo).2
    have hl : l = LauncherPc.done := by
      by_contra hne
      exact absurd (h1 hne).1 (by simp)
    subst hlo hle hl
    cases m with
    | returned res =>
      have hr := q7 res rfl
      subst hr
      simp [completion, runAsync]
    | _ => simp [completion, runAsync, step]
  | false =>
    have hlo : lo = false := by
      cases lo with
      | false => rfl
      | true => exact absurd (q3 rfl).1 (by simp)
    subst hlo
    cases m with
    | waited err => exact absurd (q5 err rfl) (by simp)
    | closed err => exact absurd (q6 err rfl) (by simp)
    | returned res => exact absurd (h4 res rfl) (by simp)
    | dialing =>
      cases l with
      | done =>
        have hec := h2 rfl rfl
        subst hec
        simp [completion, runAsync, step]
      | ready => simp [completion, runAsync, step, hfail]
      | running => simp [completion, runAsync, step, hfail]
    | sleeping =>
      cases l with
      | done =>
        have hec := h2 rfl rfl
        subst hec
        simp [completion, runAsync, step]
      | ready => simp [completion, runAsync, step, hfail]
      | running => simp [completion, runAsync, step, hfail]

theorem LaunchCrosvmAsync_eq_some (proc : Cmd → Option String) (acts : List Action)
    (ctx : Context) (config : Config) (attr : Option SysProcAttr) (logger : Option Log)
    (res : Option String) :
    LaunchCrosvmAsync proc acts ctx config attr logger = some res ↔
      ∃ s, runAsync proc ⟨ctx, config, attr, logger⟩ acts
          (AsyncState.init ⟨ctx, config, attr, logger⟩) = some s ∧
        s.main = MainPc.returned res := by
  unfold LaunchCrosvmAsync
  simp only
  cases runAsync proc ⟨ctx, config, attr, logger⟩ acts
      (AsyncState.init ⟨ctx, config, attr, logger⟩) with
  | none => simp
  | some s =>
    cases hm : s.main <;> simp [hm]

theorem globalInv_init (r : Option String) (x : AsyncArgs) : globalInv r (AsyncState.init x) := by
  simp [globalInv, AsyncState.init]

theorem quietInv_init (r : Option String) (x : AsyncArgs) : quietInv r (AsyncState.init x) := by
  simp [quietInv, AsyncState.init]

theorem liveInv_init (r : Option String) (x : AsyncArgs) : liveInv r (AsyncState.init x) := by
  simp [liveInv, AsyncState.init]

theorem noDialInv_init (e : String) (x : AsyncArgs) : noDialInv e (AsyncState.init x) := by
  simp [noDialInv, AsyncState.init]

theorem runAsync_returned (proc : Cmd → Option String) (x : AsyncArgs) (res : Option String)
    (acts : List Action) (s s' : AsyncState) (h : s.main = MainPc.returned res)
    (hrun : runAsync proc x acts s = some s') : s'.main = MainPc.returned res :=
  runAsync_invariant proc x (fun s => s.main = MainPc.returned res) (fun _ => True)
    (step_returned proc x res) acts s s' (fun _ _ => trivial) h hrun

theorem runAsync_taken (proc : Cmd → Option String) (x : AsyncArgs) (e : String)
    (hfail : (launcher proc x).2 = some e) (acts : List Action) (s : AsyncState)
    (hmem : Action.selectErrCh ∈ acts)
    (hrun : runAsync proc x acts (AsyncState.init x) = some s) : takenInv e s := by
  obtain ⟨pre, post, rfl⟩ := List.append_of_mem hmem
  rw [runAsync_append] at hrun
  cases h1 : runAsync proc x pre (AsyncState.init x) with
  | none => rw [h1] at hrun; cases hrun
  | some s1 =>
    rw [h1] at hrun
    simp only [Option.bind, runAsync] at hrun
    have hG : globalInv (some e) s1 :=
      runAsync_invariant proc x (globalInv (some e)) (fun _ => True)
        (fun s a s' hJ hok h => hfail ▸ globalInv_step proc x s a s' (hfail ▸ hJ) hok h)
        pre _ s1 (fun _ _ => trivial) (globalInv_init _ x) h1
    cases h2 : step proc x s1 Action.selectErrCh with
    | none => rw [h2] at hrun; cases hrun
    | some s2 =>
      rw [h2] at hrun
      have hT : takenInv e s2 := by
        obtain ⟨l, ec, ce, lo, wc, le, sel, m, ev⟩ := s1
        obtain ⟨g1, -, g3⟩ := hG
        simp only at g1 g3
        simp only [step] at h2
        cases sel with
        | true => simp at h2
        | false =>
          cases ec with
          | none => simp at h2
          | some r =>
            simp only [Bool.false_eq_true, if_false, Option.some.injEq] at h2
            subst h2
            have hr := g1 r rfl
            subst hr
            exact ⟨rfl, rfl, fun res hres => absurd (g3 res hres) (by simp)⟩
      exact runAsync_invariant proc x (takenInv e) (fun _ => True)
        (takenInv_step proc x e) post s2 s (fun _ _ => trivial) hT hrun

theorem progressInv_init (r : Option String) (x : AsyncArgs) :
    progressInv r (AsyncState.init x) := by
  simp [progressInv, AsyncState.init]

theorem progressInv_step (proc : Cmd → Option String) (x : AsyncArgs) (s : AsyncState)
    (a : Action) (s' : AsyncState) (hJ : progressInv (launcher proc x).2 s) (_hok : True)
    (h : step proc x s a = some s') : progressInv (launcher proc x).2 s' := by
  obtain ⟨l, ec, ce, lo, wc, le, sel, m, ev⟩ := s
  unfold progressInv at hJ ⊢
  simp only at hJ
  obtain ⟨h1, h2, h3, h4, h5, h6, h7⟩ := hJ
  cases a <;> simp only [step] at h <;> (repeat' split at h) <;>
    simp only [Option.some.injEq, reduceCtorEq] at h <;> (try subst h) <;>
    simp_all

theorem completion_progress (proc : Cmd → Option String) (x : AsyncArgs) (s : AsyncState)
    (hJ : progressInv (launcher proc x).2 s) :
    ∃ sf res, runAsync proc x (completion s) s = some sf ∧ sf.main = MainPc.returned res := by
  obtain ⟨l, ec, ce, lo, wc, le, sel, m, ev⟩ := s
  obtain ⟨-, h2, h3, h4, h5, -, h7⟩ := hJ
  simp only at h2 h3 h4 h5 h7
  cases sel with
  | true =>
    cases m with
    | dialing =>
      have hwc := h4 rfl
      subst hwc
      have hlo : lo = true := by
        rcases h3 rfl with h | h
        · exact h
        · cases h
      subst hlo
      cases l <;> cases le <;> simp [completion, runAsync, step]
    | sleeping =>
      have hwc := h5 rfl
      subst hwc
      have hlo : lo = true := by
        rcases h3 rfl with h | h
        · exact h
        · cases h
      subst hlo
      cases l <;> cases le <;> simp [completion, runAsync, step]
    | waited err => cases l <;> cases le <;> simp [completion, runAsync, step]
    | closed err => cases l <;> cases le <;> simp [completion, runAsync, step]
    | returned res => cases l <;> simp [completion, runAsync, step]
  | false =>
    cases m with
    | returned res => exact absurd (h7 res rfl) (by simp)
    | dialing =>
      cases l with
      | done =>
        have hec := h2 rfl rfl
        subst hec
        cases hr : (launcher proc x).2 <;> simp [completion, runAsync, step]
      | ready => cases hr : (launcher proc x).2 <;> simp [completion, runAsync, step, hr]
      | running => cases hr : (launcher proc x).2 <;> simp [completion, runAsync, step, hr]
    | sleeping =>
      cases l with
      | done =>
        have hec := h2 rfl rfl
        subst hec
        cases hr : (launcher proc x).2 <;> simp [completion, runAsync, step]
      | ready => cases hr : (launcher proc x).2 <;> simp [completion, runAsync, step, hr]
      | running => cases hr : (launcher proc x).2 <;> simp [completion, runAsync, step, hr]
    | waited err =>
      cases l with
      | done =>
        have hec := h2 rfl rfl
        subst hec
        cases hr : (launcher proc x).2 <;> simp [completion, runAsync, step]
      | ready => cases hr : (launcher proc x).2 <;> simp [completion, runAsync, step, hr]
      | running => cases hr : (launcher proc x).2 <;> simp [completion, runAsync, step, hr]
    | closed err =>
      cases l with
      | done =>
        have hec := h2 rfl rfl
        subst hec
        cases hr : (launcher proc x).2 <;> simp [completion, runAsync, step]
      | ready => cases hr : (launcher proc x).2 <;> simp [completion, runAsync, step, hr]
      | running => cases hr : (launcher proc x).2 <;> simp [completion, runAsync, step, hr]

/-- C19: evaluation at a failing input. Called with a non-nil attr on the
configuration of the concrete scenario, LaunchCrosvm runs its command with
that attr, while the command started by LaunchCrosvmAsync, in a schedule in
which the guest starts, has the same binary and arguments and a nil attr. -/
theorem LaunchCrosvmAsync_drops_attr :
    invocations (LaunchCrosvm okProc (Context.caller 0) scenarioCfg (some ⟨7⟩) none).1 =
        [{ ctx := Context.caller 0, name := "crosvm",
           args := ["run", "-s", "/tmp/s.sock", "-r", "rootfs.ext4", "--rwqcow", "image.qcow",
             "-m", "1024", "-c", "2", "--disable-sandbox", "vmlinux"],
           SysProcAttr := some ⟨7⟩ }] ∧
      LaunchCrosvmAsync okProc readySchedule (Context.caller 0) scenarioCfg (some ⟨7⟩) none =
        some none ∧
      asyncInvocations okProc readySchedule (Context.caller 0) scenarioCfg (some ⟨7⟩) none =
        some [{ ctx := Context.derived, name := "crosvm",
                args := ["run", "-s", "/tmp/s.sock", "-r", "rootfs.ext4", "--rwqcow",
                  "image.qcow", "-m", "1024", "-c", "2", "--disable-sandbox", "vmlinux"],
                SysProcAttr := none }] := by
  decide

/-- Counterexample to C20: the launch fails with "exit status 1", no dial ever
succeeds, the context of the caller is cancelled before the second goroutine
comes to its select, and the select takes the cancellation: LaunchCrosvmAsync
returns "context canceled", not the error of the launch. -/
theorem LaunchCrosvmAsync_cancel_wins :
    (launcher failingProc ⟨Context.caller 0, scenarioCfg, none, none⟩).2 =
        some "exit status 1" ∧
      (∀ a ∈ cancelWinsSchedule, a ≠ Action.dialSucceeds) ∧
      LaunchCrosvmAsync failingProc cancelWinsSchedule (Context.caller 0) scenarioCfg none none =
        some (some "context canceled") := by
  decide

/-- C20, amended: let the launch fail with the error `e` (the configuration is
rejected or the command fails). Whenever LaunchCrosvmAsync returns, it returns
`e` if the second goroutine took the result of the launch at its select,
whatever the main thread was doing and whether or not the context of the
caller is done; it returns `e` if no dial succeeded and the context of the
caller was not cancelled; if no dial succeeded it returns `e` or the error of
the cancelled derived context; and what it has returned does not change
afterwards. From every state reached without a successful dial and without a
cancellation by the caller, it can go on to return, and then returns `e`. And
from every state reached under any schedule, whether or not the context of the
caller is cancelled or has timed out, it can go on to return, without a
further dial succeeding or a change of the context of the caller: with `e` if
the second goroutine had taken the result of the launch, and with `e` or the
error of the cancelled derived context if no dial had succeeded. -/
theorem LaunchCrosvmAsync_launch_error (proc : Cmd → Option String) (ctx : Context)
    (config : Config) (attr : Option SysProcAttr) (logger : Option Log) (e : String)
    (hfail : (launcher proc ⟨ctx, config, attr, logger⟩).2 = some e) :
    (∀ acts res, LaunchCrosvmAsync proc acts ctx config attr logger = some res →
        (Action.selectErrCh ∈ acts → res = some e) ∧
        (quiet acts → res = some e) ∧
        ((∀ a ∈ acts, a ≠ Action.dialSucceeds) → res = some e ∨ res = some ctxCanceled) ∧
        (∀ more res', LaunchCrosvmAsync proc (acts ++ more) ctx config attr logger = some res' →
          res' = res)) ∧
      (∀ acts s, quiet acts →
        runAsync proc ⟨ctx, config, attr, logger⟩ acts
          (AsyncState.init ⟨ctx, config, attr, logger⟩) = some s →
        quiet (completion s) ∧
          LaunchCrosvmAsync proc (acts ++ completion s) ctx config attr logger =
            some (some e)) ∧
      (∀ acts s,
        runAsync proc ⟨ctx, config, attr, logger⟩ acts
          (AsyncState.init ⟨ctx, config, attr, logger⟩) = some s →
        quiet (completion s) ∧
          ∃ res, LaunchCrosvmAsync proc (acts ++ completion s) ctx config attr logger =
              some res ∧
            (Action.selectErrCh ∈ acts → res = some e) ∧
            ((∀ a ∈ acts, a ≠ Action.dialSucceeds) →
              res = some e ∨ res = some ctxCanceled)) := by
  have safe : ∀ acts res, LaunchCrosvmAsync proc acts ctx config attr logger = some res →
      (Action.selectErrCh ∈ acts → res = some e) ∧
      (quiet acts → res = some e) ∧
      ((∀ a ∈ acts, a ≠ Action.dialSucceeds) → res = some e ∨ res = some ctxCanceled) ∧
      (∀ more res', LaunchCrosvmAsync proc (acts ++ more) ctx config attr logger = some res' →
        res' = res) := ?_
  refine ⟨safe, ?_, ?_⟩
  rotate_left 2
  · intro acts res hret
    obtain ⟨s, hrun, hmain⟩ := (LaunchCrosvmAsync_eq_some _ _ _ _ _ _ _).mp hret
    refine ⟨?_, ?_, ?_, ?_⟩
    · intro hmem
      exact (runAsync_taken proc _ e hfail acts s hmem hrun).2.2 res hmain
    · intro hq
      have hQ := runAsync_invariant proc _ (quietInv (some e)) _
        (quietInv_step proc _ e hfail) acts _ s hq (quietInv_init _ _) hrun
      exact hQ.2.2.2.2.2.2 res hmain
    · intro hq
      have hN := runAsync_invariant proc _ (fun s => globalInv (some e) s ∧ noDialInv e s) _
        (noDialInv_step proc _ e hfail) acts _ s hq
        ⟨globalInv_init _ _, noDialInv_init _ _⟩ hrun
      exact hN.2.2.2.2 res hmain
    · intro more res' hret'
      obtain ⟨s', hrun', hmain'⟩ := (LaunchCrosvmAsync_eq_some _ _ _ _ _ _ _).mp hret'
      rw [runAsync_append, hrun] at hrun'
      have := runAsync_returned proc _ res more s s' hmain hrun'
      rw [hmain'] at this
      exact MainPc.returned.inj this
  · intro acts s hq hrun
    have hQ := runAsync_invariant proc _
      (fun s => quietInv (some e) s ∧ liveInv (some e) s) _
      (liveInv_step proc _ e hfail) acts _ s hq
      ⟨quietInv_init _ _, liveInv_init _ _⟩ hrun
    obtain ⟨sf, hsf, hmain⟩ := completion_returns proc _ e hfail s hQ
    refine ⟨completion_quiet s, (LaunchCrosvmAsync_eq_some _ _ _ _ _ _ _).mpr ⟨sf, ?_, hmain⟩⟩
    rw [runAsync_append, hrun]
    exact hsf
  · intro acts s hrun
    have hP := runAsync_invariant proc _ (progressInv (launcher proc _).2) (fun _ => True)
      (progressInv_step proc _) acts _ s (fun _ _ => trivial) (progressInv_init _ _) hrun
    obtain ⟨sf, res, hsf, hmain⟩ := completion_progress proc _ s hP
    have hret : LaunchCrosvmAsync proc (acts ++ completion s) ctx config attr logger =
        some res := by
      refine (LaunchCrosvmAsync_eq_some _ _ _ _ _ _ _).mpr ⟨sf, ?_, hmain⟩
      rw [runAsync_append, hrun]
      exact hsf
    obtain ⟨h1, -, h3, -⟩ := safe _ res hret
    refine ⟨completion_quiet s, res, hret, ?_, ?_⟩
    · intro hmem
      exact h1 (List.mem_append_left _ hmem)
    · intro hno
      apply h3
      intro a ha
      rcases List.mem_append.mp ha with ha | ha
      · exact hno a ha
      · exact (completion_quiet s a ha).1

/-- Witness of C20, amended: a launch that fails with "exit status 1"; the
second goroutine takes its error, in one schedule after the caller has
cancelled; the call runs to its return from the initial state; and after the
context of the caller has timed out and the second goroutine has taken the
error of the launch, the call goes on to return that error. -/
theorem LaunchCrosvmAsync_launch_error_witness :
    (launcher failingProc ⟨Context.caller 0, scenarioCfg, none, none⟩).2 =
        some "exit status 1" ∧
      (LaunchCrosvmAsync failingProc launchErrorCancelSchedule (Context.caller 0) scenarioCfg
          none none = some (some "exit status 1") ∧
        Action.selectErrCh ∈ launchErrorCancelSchedule) ∧
      (LaunchCrosvmAsync failingProc launchErrorSchedule (Context.caller 0) scenarioCfg
          none none = some (some "exit status 1") ∧
        quiet launchErrorSchedule) ∧
      (quiet [] ∧
        LaunchCrosvmAsync failingProc
          ([] ++ completion (AsyncState.init ⟨Context.caller 0, scenarioCfg, none, none⟩))
          (Context.caller 0) scenarioCfg none none = some (some "exit status 1")) ∧
      (Action.selectErrCh ∈ timedOutTakenPrefix ∧
        Action.ctxDone ctxDeadlineExceeded ∈ timedOutTakenPrefix ∧
        LaunchCrosvmAsync failingProc timedOutTakenPrefix (Context.caller 0) scenarioCfg
          none none = none ∧
        ∃ more, quiet more ∧
          LaunchCrosvmAsync failingProc (timedOutTakenPrefix ++ more) (Context.caller 0)
            scenarioCfg none none = some (some "exit status 1")) := by
  refine ⟨by decide, ⟨by decide, by decide⟩, ⟨by decide, by unfold quiet; decide⟩,
    ⟨by unfold quiet; decide,
      ((LaunchCrosvmAsync_launch_error failingProc (Context.caller 0) scenarioCfg none none
        "exit status 1" (by decide)).2.1 [] _ (by unfold quiet; decide) rfl).2⟩,
    by decide, by decide, by decide, ?_⟩
  obtain ⟨hq, res, hret, htaken, -⟩ :=
    (LaunchCrosvmAsync_launch_error failingProc (Context.caller 0) scenarioCfg none none
      "exit status 1" (by decide)).2.2 timedOutTakenPrefix _ rfl
  rw [htaken (by decide)] at hret
  exact ⟨_, hq, hret⟩

/-- Counterexample to C25: with the sandbox enabled `Security.appendArgs`
appends three tokens, and the network device of TestConfigGood appends
seven. -/
theorem appendArgs_more_than_a_pair :
    ({} : Security).appendArgs ["run"] = (["run", "-u", "--seccomp-policy-dir", ""], none) ∧
      testNet.appendArgs ["run"] =
        (["run", "--mac", "AA:BB:CC:00:00:12", "--host_ip", "192.168.30.1", "--netmask",
          "255.255.255.0", "--vhost-net"], none) := by
  decide

/-- C25, amended: on success `Disk.appendArgs` appends two tokens,
`Memory.appendArgs` and `SMP.appendArgs` none or two, `Security.appendArgs`
one, or three with the sandbox enabled, `NetDevice.appendArgs` none, six or
seven, and `Kernel.appendArgs` one or three. -/
theorem appendArgs_token_counts (d : Disk) (m : Memory) (s : SMP) (sec : Security)
    (n : NetDevice) (k : Kernel) (a : List String) :
    ((d.appendArgs a).2 = none → (d.appendArgs a).1.length = a.length + 2) ∧
      ((m.appendArgs a).1.length = a.length ∨ (m.appendArgs a).1.length = a.length + 2) ∧
      ((s.appendArgs a).1.length = a.length ∨ (s.appendArgs a).1.length = a.length + 2) ∧
      ((sec.appendArgs a).1.length = a.length + (if sec.DisableSandbox = true then 1 else 3)) ∧
      ((n.appendArgs a).2 = none →
        (n.appendArgs a).1.length = a.length ∨ (n.appendArgs a).1.length = a.length + 6 ∨
          (n.appendArgs a).1.length = a.length + 7) ∧
      ((k.appendArgs a).2 = none →
        (k.appendArgs a).1.length = a.length + 1 ∨ (k.appendArgs a).1.length = a.length + 3) := by
  refine ⟨?_, ?_, ?_, ?_, ?_, ?_⟩
  · intro h
    rw [disk_appendArgs_of_ok d a ((disk_appendArgs_snd d a).mp h)]; simp
  · unfold Memory.appendArgs; split <;> simp
  · unfold SMP.appendArgs; split <;> simp
  · unfold Security.appendArgs; split <;> simp
  · intro h
    have hp := (net_appendArgs_snd n a).mp h
    by_cases hu : n.MACAddress = "" ∧ n.HostIP = [] ∧ n.NetMask = []
    · left; rw [net_appendArgs_of_unset n a hu]
    · have hall : n.MACAddress ≠ "" ∧ n.HostIP ≠ [] ∧ n.NetMask ≠ [] := by
        unfold NetDevice.partly at hp; tauto
      right
      rw [net_appendArgs_of_all n a hall]
      cases n.VHost <;> simp
  · intro h
    rw [kernel_appendArgs_of_path k a ((kernel_appendArgs_snd k a).mp h)]
    by_cases hp : k.Params = "" <;> simp [hp]

/-- Witness of C25, amended: a disk, the network device and the kernel of
TestConfigGood. -/
theorem appendArgs_token_counts_witness :
    (qcowDisk.appendArgs ["run"]).1.length = 1 + 2 ∧
      ((testNet.appendArgs ["run"]).1.length = 1 ∨ (testNet.appendArgs ["run"]).1.length = 1 + 6 ∨
        (testNet.appendArgs ["run"]).1.length = 1 + 7) ∧
      ((testCfg.Kernel.appendArgs ["run"]).1.length = 1 + 1 ∨
        (testCfg.Kernel.appendArgs ["run"]).1.length = 1 + 3) :=
  ⟨(appendArgs_token_counts qcowDisk {} {} {} testNet testCfg.Kernel ["run"]).1 (by decide),
    (appendArgs_token_counts qcowDisk {} {} {} testNet testCfg.Kernel ["run"]).2.2.2.2.1
      (by decide),
    (appendArgs_token_counts qcowDisk {} {} {} testNet testCfg.Kernel ["run"]).2.2.2.2.2
      (by decide)⟩

/-- C26: `Config.appendArgs` only appends: on every starting list it returns
the error it returns on the nil list, and when that is nil, the starting list
followed by the tokens it returns on the nil list. The same holds for
`SMP.appendArgs`, `Memory.appendArgs`, `Kernel.appendArgs`,
`NetDevice.appendArgs`, `Disk.appendArgs` and `Security.appendArgs`. -/
theorem appendArgs_only_appends (c : Config) (s : SMP) (m : Memory) (k : Kernel)
    (n : NetDevice) (d : Disk) (sec : Security) :
    AppendOnly c.appendArgs ∧ AppendOnly s.appendArgs ∧ AppendOnly m.appendArgs ∧
      AppendOnly k.appendArgs ∧ AppendOnly n.appendArgs ∧ AppendOnly d.appendArgs ∧
      AppendOnly sec.appendArgs := by
  refine ⟨?_, ?_, ?_, ?_, ?_, ?_, ?_⟩
  · intro a
    rw [config_appendArgs_snd, config_appendArgs_snd]
    refine ⟨rfl, fun h => ?_⟩
    rw [config_appendArgs_fst_of_ok c a h, config_appendArgs_fst_of_ok c [] h]; rfl
  · intro a; rw [smp_appendArgs_eq s a]; exact ⟨by rw [smp_appendArgs_eq s []], fun _ => rfl⟩
  · intro a
    rw [memory_appendArgs_eq m a]; exact ⟨by rw [memory_appendArgs_eq m []], fun _ => rfl⟩
  · intro a
    by_cases h : k.Path = ""
    · rw [kernel_appendArgs_of_no_path k a h, kernel_appendArgs_of_no_path k [] h]
      exact ⟨rfl, fun h' => by cases h'⟩
    · rw [kernel_appendArgs_append k a h]
      exact ⟨((kernel_appendArgs_snd k []).mpr h).symm, fun _ => rfl⟩
  · intro a
    by_cases h : n.partly
    · rw [net_appendArgs_of_partly n a h, net_appendArgs_of_partly n [] h]
      exact ⟨rfl, fun h' => by cases h'⟩
    · rw [net_appendArgs_of_not_partly n a h]
      exact ⟨((net_appendArgs_snd n []).mpr h).symm, fun _ => rfl⟩
  · intro a
    by_cases h : d.ok
    · rw [disk_appendArgs_of_ok d a h, disk_appendArgs_of_ok d [] h]
      exact ⟨rfl, fun _ => rfl⟩
    · rw [disk_appendArgs_of_not_ok d a h, disk_appendArgs_of_not_ok d [] h]
      exact ⟨rfl, fun h' => by cases h'⟩
  · intro a
    rw [security_appendArgs_eq sec a]
    exact ⟨by rw [security_appendArgs_eq sec []], fun _ => rfl⟩

/-- Witness of C26: the first configuration of TestConfigGood on a non-empty
list, and a configuration that fails. -/
theorem appendArgs_only_appends_witness :
    (testCfg.appendArgs []).2 = none ∧
      (testCfg.appendArgs ["crosvm", "run"]).2 = none ∧
      (testCfg.appendArgs ["crosvm", "run"]).1 = ["crosvm", "run"] ++ (testCfg.appendArgs []).1 ∧
      (noKernelCfg.appendArgs ["crosvm", "run"]).2 = (noKernelCfg.appendArgs []).2 :=
  ⟨by decide,
    ((appendArgs_only_appends testCfg {} {} {} {} {} {}).1 ["crosvm", "run"]).1.trans
      (by decide),
    ((appendArgs_only_appends testCfg {} {} {} {} {} {}).1 ["crosvm", "run"]).2 (by decide),
    ((appendArgs_only_appends noKernelCfg {} {} {} {} {} {}).1 ["crosvm", "run"]).1⟩

/-! ## Lemmas on WaitForGuest -/

theorem waitLoop_goesOn (ctxErr : String) (ctx : Context) (path : String) (logger : Option Log)
    (pre rs : List Round) (hpre : ∀ p ∈ pre, p.goesOn) (ev : List Event) (ds : List Dial) :
    ∃ ev' ds', waitLoop ctxErr ctx path logger (pre ++ rs) ev ds =
        waitLoop ctxErr ctx path logger rs ev' ds' ∧
      ds'.length = ds.length + pre.length := by
  induction pre generalizing ev ds with
  | nil => exact ⟨ev, ds, rfl, rfl⟩
  | cons p pre ih =>
    obtain ⟨hd, hw⟩ := hpre p (List.mem_cons_self _ _)
    obtain ⟨ev', ds', h, hl⟩ := ih (fun q hq => hpre q (List.mem_cons_of_mem _ hq))
      (ev ++ [Event.Infof logger "Attempt to open guest socket failed %v"] ++
        [Event.Infof logger "Trying to open guest socket again"])
      (ds ++ [{ ctx := ctx, network := "unixgram", address := path }])
    refine ⟨ev', ds', ?_, ?_⟩
    · rw [← h]
      cases hdial : p.dial with
      | none => exact absurd hdial hd
      | some d => simp [waitLoop, hdial, hw]
    · rw [hl]; simp; omega

theorem waitLoop_decides (ctxErr : String) (ctx : Context) (path : String)
    (logger : Option Log) (r : Round) (post : List Round) (hr : ¬ r.goesOn) (ev : List Event)
    (ds : List Dial) :
    ∃ res, waitLoop ctxErr ctx path logger (r :: post) ev ds = some res ∧
      res.err = (if r.dial = none then none else some ctxErr) ∧
      res.dials.length = ds.length + 1 := by
  obtain ⟨dial, wake⟩ := r
  unfold Round.goesOn at hr
  simp only at hr
  cases dial with
  | none => exact ⟨_, rfl, rfl, by simp⟩
  | some d =>
    cases wake with
    | ctxDone => exact ⟨_, rfl, rfl, by simp⟩
    | timer done =>
      cases done with
      | true => exact ⟨_, rfl, rfl, by simp⟩
      | false => exact absurd ⟨by simp, rfl⟩ hr

theorem waitLoop_none (ctxErr : String) (ctx : Context) (path : String) (logger : Option Log)
    (rounds : List Round) (h : ∀ p ∈ rounds, p.goesOn) (ev : List Event) (ds : List Dial) :
    waitLoop ctxErr ctx path logger rounds ev ds = none := by
  obtain ⟨ev', ds', h', -⟩ := waitLoop_goesOn ctxErr ctx path logger rounds [] h ev ds
  rw [List.append_nil] at h'
  rw [h']; rfl

theorem rounds_split (rounds : List Round) :
    (∀ p ∈ rounds, p.goesOn) ∨
      ∃ pre r post, rounds = pre ++ r :: post ∧ (∀ p ∈ pre, p.goesOn) ∧ ¬ r.goesOn := by
  induction rounds with
  | nil => left; intro p hp; cases hp
  | cons q qs ih =>
    by_cases hq : q.goesOn
    · rcases ih with h | ⟨pre, r, post, rfl, hpre, hr⟩
      · left
        intro p hp
        rcases List.mem_cons.mp hp with rfl | hp
        · exact hq
        · exact h p hp
      · right
        refine ⟨q :: pre, r, post, rfl, ?_, hr⟩
        intro p hp
        rcases List.mem_cons.mp hp with rfl | hp
        · exact hq
        · exact hpre p hp
    · right
      exact ⟨[], q, qs, rfl, fun p hp => absurd hp (List.not_mem_nil p), hq⟩

/-- C22: WaitForGuest under a sequence of observations. It returns at the first
turn that does not go on, having made one dial in each turn up to that one and
no further one: with success if the dial of that turn succeeded, with the
error of the context if the dial failed and the context was found done, by
the select or right after the timer. Every return is of this form, so success
comes directly after the first successful dial and the error of a failed dial
is never returned; and it does not return while every turn goes on. -/
theorem WaitForGuest_result (ctxErr : String) (ctx : Context) (path : String)
    (logger : Option Log) :
    (∀ pre r post, (∀ p ∈ pre, p.goesOn) → ¬ r.goesOn →
        ∃ res, WaitForGuest ctxErr (pre ++ r :: post) ctx path logger = some res ∧
          res.err = (if r.dial = none then none else some ctxErr) ∧
          res.dials.length = pre.length + 1) ∧
      (∀ rounds res, WaitForGuest ctxErr rounds ctx path logger = some res →
        ∃ pre r post, rounds = pre ++ r :: post ∧ (∀ p ∈ pre, p.goesOn) ∧ ¬ r.goesOn ∧
          (res.err = none ↔ r.dial = none) ∧ (res.err = none ∨ res.err = some ctxErr) ∧
          res.dials.length = pre.length + 1) ∧
      (∀ rounds, (∀ p ∈ rounds, p.goesOn) →
        WaitForGuest ctxErr rounds ctx path logger = none) := by
  have key : ∀ pre r post, (∀ p ∈ pre, p.goesOn) → ¬ r.goesOn →
      ∃ res, WaitForGuest ctxErr (pre ++ r :: post) ctx path logger = some res ∧
        res.err = (if r.dial = none then none else some ctxErr) ∧
        res.dials.length = pre.length + 1 := by
    intro pre r post hpre hr
    unfold WaitForGuest
    obtain ⟨ev', ds', h, hl⟩ := waitLoop_goesOn ctxErr ctx path
      (if logger = none then some Log.NullLogger else logger) pre (r :: post) hpre [] []
    obtain ⟨res, hres, herr, hd⟩ := waitLoop_decides ctxErr ctx path
      (if logger = none then some Log.NullLogger else logger) r post hr ev' ds'
    refine ⟨res, ?_, herr, ?_⟩
    · simp only; rw [h, hres]
    · rw [hd, hl]; simp
  refine ⟨key, ?_, ?_⟩
  · intro rounds res hres
    rcases rounds_split rounds with hall | ⟨pre, r, post, rfl, hpre, hr⟩
    · unfold WaitForGuest at hres
      simp only at hres
      rw [waitLoop_none ctxErr ctx path _ rounds hall] at hres
      cases hres
    · obtain ⟨res', hres', herr, hd⟩ := key pre r post hpre hr
      rw [hres] at hres'
      cases hres'
      refine ⟨pre, r, post, rfl, hpre, hr, ?_, ?_, hd⟩
      · rw [herr]; by_cases h : r.dial = none <;> simp [h]
      · rw [herr]; by_cases h : r.dial = none <;> simp [h]
  · intro rounds hall
    unfold WaitForGuest
    exact waitLoop_none ctxErr ctx path _ rounds hall [] []

/-- Witness of C22: two failed dials and a cancellation found by the select,
then by the inner select after the timer; a failed dial and a successful
one. -/
theorem WaitForGuest_result_witness :
    (∃ res, WaitForGuest ctxCanceled ([retryRound, retryRound] ++ cancelRound :: [connectRound])
          (Context.caller 0) "/tmp/s.sock" none = some res ∧
        res.err = (if cancelRound.dial = none then none else some ctxCanceled) ∧
        res.dials.length = [retryRound, retryRound].length + 1) ∧
      (∃ res, WaitForGuest ctxCanceled ([retryRound] ++ lateCancelRound :: [connectRound])
          (Context.caller 0) "/tmp/s.sock" none = some res ∧
        res.err = (if lateCancelRound.dial = none then none else some ctxCanceled) ∧
        res.dials.length = [retryRound].length + 1) ∧
      (∃ res, WaitForGuest ctxCanceled ([retryRound] ++ connectRound :: [cancelRound])
          (Context.caller 0) "/tmp/s.sock" none = some res ∧
        res.err = (if connectRound.dial = none then none else some ctxCanceled) ∧
        res.dials.length = [retryRound].length + 1) ∧
      WaitForGuest ctxCanceled [retryRound, retryRound] (Context.caller 0) "/tmp/s.sock" none =
        none :=
  ⟨(WaitForGuest_result ctxCanceled (Context.caller 0) "/tmp/s.sock" none).1
      [retryRound, retryRound] cancelRound [connectRound] (by decide) (by decide),
    (WaitForGuest_result ctxCanceled (Context.caller 0) "/tmp/s.sock" none).1
      [retryRound] lateCancelRound [connectRound] (by decide) (by decide),
    (WaitForGuest_result ctxCanceled (Context.caller 0) "/tmp/s.sock" none).1
      [retryRound] connectRound [cancelRound] (by decide) (by decide),
    (WaitForGuest_result ctxCanceled (Context.caller 0) "/tmp/s.sock" none).2.2
      [retryRound, retryRound] (by decide)⟩

/-! ## Lemmas on the logger -/

theorem logsOn_append (l : Option Log) (a b : List Event) :
    logsOn l (a ++ b) ↔ logsOn l a ∧ logsOn l b := by
  unfold logsOn
  constructor
  · intro h
    exact ⟨fun l' f hm => h l' f (List.mem_append_left _ hm),
      fun l' f hm => h l' f (List.mem_append_right _ hm)⟩
  · rintro ⟨ha, hb⟩ l' f hm
    rcases List.mem_append.mp hm with hm | hm
    · exact ha l' f hm
    · exact hb l' f hm

theorem logsOn_nil (l : Option Log) : logsOn l [] := by
  intro l' f hm; cases hm

theorem logsOn_single (l : Option Log) (f : String) : logsOn l [Event.Infof l f] := by
  intro l' f' hm
  simp only [List.mem_singleton, Event.Infof.injEq] at hm
  exact hm.1

theorem execCrosvm_logs (proc : Cmd → Option String) (ctx : Context) (path : String)
    (args : List String) (attr : Option SysProcAttr) (l : Option Log) :
    logsOn l (execCrosvm proc ctx path args attr l).1 := by
  intro l' f hm
  simp only [execCrosvm, List.mem_cons, Event.Infof.injEq, reduceCtorEq, List.mem_nil_iff,
    or_false] at hm
  exact hm.1

theorem LaunchCrosvm_logs (proc : Cmd → Option String) (ctx : Context) (config : Config)
    (attr : Option SysProcAttr) (logger : Option Log) :
    logsOn (if logger = none then some Log.NullLogger else logger)
      (LaunchCrosvm proc ctx config attr logger).1 := by
  unfold LaunchCrosvm
  cases hc : config.appendArgs [] with
  | mk t e =>
    cases e with
    | some err => exact logsOn_nil _
    | none => exact execCrosvm_logs proc ctx config.Path _ attr _

theorem waitLoop_logs (ctxErr : String) (ctx : Context) (path : String) (l : Option Log)
    (rounds : List Round) (ev : List Event) (ds : List Dial) (res : WaitResult)
    (hev : logsOn l ev) (h : waitLoop ctxErr ctx path l rounds ev ds = some res) :
    logsOn l res.events := by
  induction rounds generalizing ev ds with
  | nil => cases h
  | cons r rs ih =>
    obtain ⟨dial, wake⟩ := r
    cases dial with
    | none =>
      simp only [waitLoop, Option.some.injEq] at h
      subst h
      exact (logsOn_append _ _ _).mpr ⟨hev, logsOn_single _ _⟩
    | some d =>
      have hev1 := (logsOn_append l ev _).mpr
        ⟨hev, logsOn_single l "Attempt to open guest socket failed %v"⟩
      cases wake with
      | ctxDone =>
        simp only [waitLoop, Option.some.injEq] at h
        subst h
        exact hev1
      | timer done =>
        cases done with
        | true =>
          simp only [waitLoop, Option.some.injEq] at h
          subst h
          exact hev1
        | false =>
          simp only [waitLoop] at h
          exact ih _ _ ((logsOn_append _ _ _).mpr ⟨hev1, logsOn_single _ _⟩) h

theorem AsyncArgs_log_log (x : AsyncArgs) :
    (if x.log = none then some Log.NullLogger else x.log) = x.log := by
  unfold AsyncArgs.log
  cases x.logger <;> simp

theorem step_logs (proc : Cmd → Option String) (x : AsyncArgs) (s : AsyncState) (a : Action)
    (s' : AsyncState) (hJ : logsOn x.log s.events) (_hok : True)
    (h : step proc x s a = some s') : logsOn x.log s'.events := by
  have hl : logsOn x.log (launcher proc x).1 := by
    have := LaunchCrosvm_logs proc Context.derived x.config none x.log
    rw [AsyncArgs_log_log] at this
    exact this
  obtain ⟨l, ec, ce, lo, wc, le, sel, m, ev⟩ := s
  simp only at hJ
  cases a <;> simp only [step] at h <;> (repeat' split at h) <;>
    simp only [Option.some.injEq, reduceCtorEq] at h <;> (try subst h) <;>
    simp only [logsOn_append, logsOn_single, logsOn_nil, and_true] <;>
    first | exact hJ | exact ⟨hJ, hl⟩

/-- C23: called with a nil logger, LaunchCustomCrosvm, LaunchCrosvm,
ExecuteStop, ExecuteBalloon, WaitForGuest and LaunchCrosvmAsync make every
call on a logger on a NullLogger, never on the nil one; and the method V of
NullLogger returns false for every level, while its methods Infof, Warningf
and Errorf leave the log as it is. -/
theorem nil_logger_is_NullLogger (proc : Cmd → Option String) (ctx : Context) (path : String)
    (args sockets : List String) (config : Config) (attr : Option SysProcAttr)
    (numPages : Int) (ctxErr : String) (rounds : List Round) (schedule : List Action) :
    logsOnNull (LaunchCustomCrosvm proc ctx path args attr none).1 ∧
      logsOnNull (LaunchCrosvm proc ctx config attr none).1 ∧
      logsOnNull (ExecuteStop proc ctx path sockets attr none).1 ∧
      logsOnNull (ExecuteBalloon proc ctx path numPages sockets attr none).1 ∧
      (∀ res, WaitForGuest ctxErr rounds ctx path none = some res → logsOnNull res.events) ∧
      (∀ es, asyncEvents proc schedule ctx config attr none = some es → logsOnNull es) ∧
      (∀ level, NullLogger.V level = false) ∧
      (∀ format v out, NullLogger.Infof format v out = out ∧
        NullLogger.Warningf format v out = out ∧ NullLogger.Errorf format v out = out) := by
  refine ⟨?_, ?_, ?_, ?_, ?_, ?_, fun _ => rfl, fun _ _ _ => ⟨rfl, rfl, rfl⟩⟩
  · exact execCrosvm_logs proc ctx path _ attr _
  · exact LaunchCrosvm_logs proc ctx config attr none
  · unfold ExecuteStop
    split
    · exact logsOn_nil _
    · exact execCrosvm_logs proc ctx path _ attr _
  · unfold ExecuteBalloon
    split
    · exact logsOn_nil _
    · exact execCrosvm_logs proc ctx path _ attr _
  · intro res h
    exact waitLoop_logs ctxErr ctx path _ rounds [] [] res (logsOn_nil _) h
  · intro es h
    unfold asyncEvents at h
    simp only [Option.map_eq_some'] at h
    obtain ⟨s, hrun, rfl⟩ := h
    exact runAsync_invariant proc _ (fun s => logsOn (some Log.NullLogger) s.events)
      (fun _ => True) (step_logs proc ⟨ctx, config, attr, none⟩) schedule _ s
      (fun _ _ => trivial) (logsOn_single _ _) hrun

/-- Witness of C23: the calls on the logger in a launch that fails, in a wait
that is cancelled and in an asynchronous launch in which the guest starts, all
with a nil logger. -/
theorem nil_logger_is_NullLogger_witness :
    (LaunchCrosvm failingProc (Context.caller 0) scenarioCfg none none).1.head? =
        some (Event.Infof (some Log.NullLogger) "running %s %s") ∧
      (∃ res, WaitForGuest ctxCanceled [retryRound, cancelRound] (Context.caller 0)
          "/tmp/s.sock" none = some res ∧ res.events ≠ [] ∧ logsOnNull res.events) ∧
      (∃ es, asyncEvents okProc readySchedule (Context.caller 0) scenarioCfg none none = some es ∧
        es.length = 6 ∧ logsOnNull es) :=
  ⟨by decide,
    ⟨_, rfl, by decide,
      (nil_logger_is_NullLogger okProc (Context.caller 0) "/tmp/s.sock" [] [] scenarioCfg none 0
        ctxCanceled [retryRound, cancelRound] readySchedule).2.2.2.2.1 _ rfl⟩,
    ⟨_, rfl, by decide,
      (nil_logger_is_NullLogger okProc (Context.caller 0) "/tmp/s.sock" [] [] scenarioCfg none 0
        ctxCanceled [retryRound, cancelRound] readySchedule).2.2.2.2.2.1 _ rfl⟩⟩

/-! ## Lemmas on the cancellation of LaunchCrosvmAsync -/

theorem cancelInv_init (x : AsyncArgs) : cancelInv (AsyncState.init x) := by
  simp [cancelInv, AsyncState.init]

theorem cancelInv_step (proc : Cmd → Option String) (x : AsyncArgs) (s : AsyncState)
    (a : Action) (s' : AsyncState) (hJ : cancelInv s)
    (hok : a ≠ Action.dialSucceeds ∧ a ≠ Action.selectErrCh)
    (h : step proc x s a = some s') : cancelInv s' := by
  obtain ⟨l, ec, ce, lo, wc, le, sel, m, ev⟩ := s
  unfold cancelInv at hJ ⊢
  simp only at hJ
  obtain ⟨h1, h2, h2', h3, h4, h5, h5', h6, h6', h7, h7'⟩ := hJ
  cases a <;> simp only [step] at h <;> (repeat' split at h) <;>
    simp only [Option.some.injEq, reduceCtorEq] at h <;> (try subst h) <;>
    simp_all <;> (try tauto)

theorem step_ctxErr (proc : Cmd → Option String) (x : AsyncArgs) (s : AsyncState) (a : Action)
    (s' : AsyncState) (h : step proc x s a = some s') :
    s'.ctxErr = s.ctxErr ∨ ∃ err, a = Action.ctxDone err ∧ s'.ctxErr = some err := by
  obtain ⟨l, ec, ce, lo, wc, le, sel, m, ev⟩ := s
  cases a <;> simp only [step] at h <;> (repeat' split at h) <;>
    simp only [Option.some.injEq, reduceCtorEq] at h <;> (try subst h) <;>
    simp_all

theorem runAsync_ctxErr (proc : Cmd → Option String) (x : AsyncArgs) (acts : List Action)
    (s s' : AsyncState) (h : runAsync proc x acts s = some s') :
    s'.ctxErr = s.ctxErr ∨ ∃ err, Action.ctxDone err ∈ acts ∧ s'.ctxErr = some err := by
  induction acts generalizing s with
  | nil =>
    simp only [runAsync, Option.some.injEq] at h
    left; rw [h]
  | cons a as ih =>
    simp only [runAsync] at h
    cases hs : step proc x s a with
    | none => rw [hs] at h; cases h
    | some s1 =>
      rw [hs] at h
      rcases ih s1 h with h1 | ⟨err, hmem, herr⟩
      · rcases step_ctxErr proc x s a s1 hs with h2 | ⟨err, rfl, h2⟩
        · left; rw [h1, h2]
        · right; exact ⟨err, List.mem_cons_self _ _, by rw [h1, h2]⟩
      · right; exact ⟨err, List.mem_cons_of_mem _ hmem, herr⟩

theorem step_errCh_empty (proc : Cmd → Option String) (x : AsyncArgs) (s : AsyncState)
    (a : Action) (s' : AsyncState) (hJ : s.errCh = none) (hok : a ≠ Action.launcherReturns)
    (h : step proc x s a = some s') : s'.errCh = none := by
  obtain ⟨l, ec, ce, lo, wc, le, sel, m, ev⟩ := s
  simp only at hJ
  subst hJ
  cases a <;> simp only [step] at h <;> (repeat' split at h) <;>
    simp only [Option.some.injEq, reduceCtorEq] at h <;> (try subst h) <;>
    simp_all

theorem runAsync_running (proc : Cmd → Option String) (x : AsyncArgs) (acts : List Action)
    (s : AsyncState) (hrun : runAsync proc x acts (AsyncState.init x) = some s)
    (hno : Action.launcherReturns ∉ acts) : Action.selectErrCh ∉ acts := by
  intro hmem
  obtain ⟨pre, post, rfl⟩ := List.append_of_mem hmem
  rw [runAsync_append] at hrun
  cases h1 : runAsync proc x pre (AsyncState.init x) with
  | none => rw [h1] at hrun; cases hrun
  | some s1 =>
    rw [h1] at hrun
    have he : s1.errCh = none :=
      runAsync_invariant proc x (fun s => s.errCh = none) (fun a => a ≠ Action.launcherReturns)
        (step_errCh_empty proc x) pre _ s1
        (fun a ha hEq => hno (hEq ▸ List.mem_append_left _ ha)) rfl h1
    obtain ⟨l, ec, ce, lo, wc, le, sel, m, ev⟩ := s1
    simp only at he
    subst he
    simp only [Option.bind, runAsync, step] at hrun
    cases sel <;> simp at hrun

theorem cancelCompletion_calm (s : AsyncState) :
    calm (cancelCompletion s) ∧ Action.launcherReturns ∉ cancelCompletion s := by
  obtain ⟨l, ec, ce, lo, wc, le, sel, m, ev⟩ := s
  unfold calm cancelCompletion
  cases sel <;> cases m <;> simp

theorem cancelCompletion_returns (proc : Cmd → Option String) (x : AsyncArgs) (s : AsyncState)
    (hJ : cancelInv s) (hdone : s.ctxErr ≠ none) :
    ∃ sf, runAsync proc x (cancelCompletion s) s = some sf ∧
      sf.main = MainPc.returned (some ctxCanceled) := by
  obtain ⟨l, ec, ce, lo, wc, le, sel, m, ev⟩ := s
  obtain ⟨h1, h2, -, h3, -, h5, h5', h6, h6', h7, h7'⟩ := hJ
  simp only at h1 h2 h3 h5 h5' h6 h6' h7 h7' hdone
  subst h1
  cases sel with
  | true =>
    have hlo : lo = true := h3 rfl
    subst hlo
    cases m with
    | returned res =>
      have hr := h7' res rfl
      subst hr
      simp [cancelCompletion, runAsync]
    | waited err =>
      have hr := h5' err rfl
      subst hr
      simp [cancelCompletion, runAsync, step]
    | closed err =>
      have hr := h6' err rfl
      subst hr
      simp [cancelCompletion, runAsync, step]
    | _ => simp [cancelCompletion, runAsync, step]
  | false =>
    have hlo : lo = false := by
      cases lo with
      | false => rfl
      | true => exact absurd (h2 rfl) (by simp)
    subst hlo
    cases m with
    | waited err => exact absurd (h5 err rfl) (by simp)
    | closed err => exact absurd (h6 err rfl) (by simp)
    | returned res => exact absurd (h7 res rfl) (by simp)
    | dialing => simp [cancelCompletion, runAsync, step, hdone]
    | sleeping => simp [cancelCompletion, runAsync, step, hdone]

/-- Counterexample to C21: the command is running, no dial succeeds and the
context of the caller times out, so that its error is "context deadline
exceeded"; LaunchCrosvmAsync returns "context canceled", the error of its
derived context. -/
theorem LaunchCrosvmAsync_deadline :
    (∀ a ∈ deadlineSchedule, a ≠ Action.dialSucceeds ∧ a ≠ Action.launcherReturns) ∧
      (runAsync okProc ⟨Context.caller 0, scenarioCfg, none, none⟩ deadlineSchedule
          (AsyncState.init ⟨Context.caller 0, scenarioCfg, none, none⟩)).map
        (fun s => s.ctxErr) = some (some "context deadline exceeded") ∧
      LaunchCrosvmAsync okProc deadlineSchedule (Context.caller 0) scenarioCfg none none =
        some (some "context canceled") := by
  decide

/-- C21, amended: when no dial succeeds and the second goroutine takes no
result of the launch, as is the case while the command is running, whatever
LaunchCrosvmAsync returns is the error of its cancelled derived context,
"context canceled", and it returns only after the context of the caller is
done; this is the error of the context of the caller when that one is
cancelled, not when it times out. Once the context of the caller is done the
call can go on to return, with that error. -/
theorem LaunchCrosvmAsync_cancelled (proc : Cmd → Option String) (ctx : Context)
    (config : Config) (attr : Option SysProcAttr) (logger : Option Log) :
    (∀ acts res, LaunchCrosvmAsync proc acts ctx config attr logger = some res → calm acts →
        res = some ctxCanceled ∧ ∃ err, Action.ctxDone err ∈ acts) ∧
      (∀ acts s, runAsync proc ⟨ctx, config, attr, logger⟩ acts
          (AsyncState.init ⟨ctx, config, attr, logger⟩) = some s →
        Action.launcherReturns ∉ acts → Action.selectErrCh ∉ acts) ∧
      (∀ acts s, calm acts →
        runAsync proc ⟨ctx, config, attr, logger⟩ acts
          (AsyncState.init ⟨ctx, config, attr, logger⟩) = some s →
        s.ctxErr ≠ none →
        calm (cancelCompletion s) ∧ Action.launcherReturns ∉ cancelCompletion s ∧
          LaunchCrosvmAsync proc (acts ++ cancelCompletion s) ctx config attr logger =
            some (some ctxCanceled)) := by
  refine ⟨?_, ?_, ?_⟩
  · intro acts res hret hcalm
    obtain ⟨s, hrun, hmain⟩ := (LaunchCrosvmAsync_eq_some _ _ _ _ _ _ _).mp hret
    have hJ := runAsync_invariant proc _ cancelInv _ (cancelInv_step proc _) acts _ s hcalm
      (cancelInv_init _) hrun
    obtain ⟨-, -, h2, h3, -, -, -, -, -, h7, h7'⟩ := hJ
    refine ⟨h7' res hmain, ?_⟩
    have hne := h2 (h3 (h7 res hmain))
    rcases runAsync_ctxErr proc _ acts _ s hrun with h | ⟨err, hmem, -⟩
    · exact absurd h hne
    · exact ⟨err, hmem⟩
  · intro acts s hrun hno
    exact runAsync_running proc _ acts s hrun hno
  · intro acts s hcalm hrun hdone
    have hJ := runAsync_invariant proc _ cancelInv _ (cancelInv_step proc _) acts _ s hcalm
      (cancelInv_init _) hrun
    obtain ⟨sf, hsf, hmain⟩ := cancelCompletion_returns proc _ s hJ hdone
    refine ⟨(cancelCompletion_calm s).1, (cancelCompletion_calm s).2,
      (LaunchCrosvmAsync_eq_some _ _ _ _ _ _ _).mpr ⟨sf, ?_, hmain⟩⟩
    rw [runAsync_append, hrun]
    exact hsf

/-- Witness of C21, amended: the context of the caller is cancelled while the
command runs and the call returns "context canceled"; and after the start of
the command and the cancellation the call can go on to return. -/
theorem LaunchCrosvmAsync_cancelled_witness :
    (LaunchCrosvmAsync okProc cancelSchedule (Context.caller 0) scenarioCfg none none =
        some (some ctxCanceled) ∧ calm cancelSchedule ∧
      ∃ err, Action.ctxDone err ∈ cancelSchedule) ∧
      (Action.launcherReturns ∉ cancelSchedule ∧ Action.selectErrCh ∉ cancelSchedule) ∧
      (calm [Action.launcherStarts, Action.ctxDone ctxCanceled] ∧
        ∃ more, LaunchCrosvmAsync okProc
          ([Action.launcherStarts, Action.ctxDone ctxCanceled] ++ more)
          (Context.caller 0) scenarioCfg none none = some (some ctxCanceled)) :=
  ⟨⟨by decide, by unfold calm; decide,
      ((LaunchCrosvmAsync_cancelled okProc (Context.caller 0) scenarioCfg none none).1
        cancelSchedule (some ctxCanceled) (by decide) (by unfold calm; decide)).2⟩,
    ⟨by decide,
      (LaunchCrosvmAsync_cancelled okProc (Context.caller 0) scenarioCfg none none).2.1
        cancelSchedule _ rfl (by decide)⟩,
    ⟨by unfold calm; decide,
      ⟨_, ((LaunchCrosvmAsync_cancelled okProc (Context.caller 0) scenarioCfg none none).2.2
        [Action.launcherStarts, Action.ctxDone ctxCanceled] _ (by unfold calm; decide) rfl
        (by decide)).2.2⟩⟩⟩

end Crosvm

namespace Qemu

/-- C24: in the default build QemuDeviceParam, a total function, returns
"virtio-net" for TAP, MACVTAP, IPVTAP and VETHTAP, "vfio-pci" for VFIO, and the
empty string for VHOSTUSER and for every other value. -/
theorem QemuDeviceParam_generic :
    Generic.QemuDeviceParam NetDeviceType.TAP = "virtio-net" ∧
      Generic.QemuDeviceParam NetDeviceType.MACVTAP = "virtio-net" ∧
      Generic.QemuDeviceParam NetDeviceType.IPVTAP = "virtio-net" ∧
      Generic.QemuDeviceParam NetDeviceType.VETHTAP = "virtio-net" ∧
      Generic.QemuDeviceParam NetDeviceType.VFIO = "vfio-pci" ∧
      Generic.QemuDeviceParam NetDeviceType.VHOSTUSER = "" ∧
      ∀ tag, Generic.QemuDeviceParam (NetDeviceType.other tag) = "" :=
  ⟨rfl, rfl, rfl, rfl, rfl, rfl, fun _ => rfl⟩

/-- C27: the s390x and the default QemuDeviceParam return the same string for
every value but VFIO, for which the s390x one returns "vfio-ccw" and the
default one "vfio-pci"; and no string the s390x one returns ends in "-pci". -/
theorem QemuDeviceParam_s390x (n : NetDeviceType) :
    (n ≠ NetDeviceType.VFIO → S390x.QemuDeviceParam n = Generic.QemuDeviceParam n) ∧
      S390x.QemuDeviceParam NetDeviceType.VFIO = "vfio-ccw" ∧
      Generic.QemuDeviceParam NetDeviceType.VFIO = "vfio-pci" ∧
      ¬ endsInPci (S390x.QemuDeviceParam n) := by
  refine ⟨?_, rfl, rfl, ?_⟩
  · intro h; cases n <;> first | rfl | exact absurd rfl h
  · cases n <;> first | decide | (show ¬ endsInPci ""; decide)

/-- Witness of C27: TAP, which is not VFIO, has the same device name in both
builds. -/
theorem QemuDeviceParam_s390x_witness :
    NetDeviceType.TAP ≠ NetDeviceType.VFIO ∧
      S390x.QemuDeviceParam NetDeviceType.TAP = Generic.QemuDeviceParam NetDeviceType.TAP ∧
      ¬ endsInPci (S390x.QemuDeviceParam NetDeviceType.VFIO) ∧
      endsInPci (Generic.QemuDeviceParam NetDeviceType.VFIO) :=
  ⟨by decide, (QemuDeviceParam_s390x NetDeviceType.TAP).1 (by decide),
    (QemuDeviceParam_s390x NetDeviceType.VFIO).2.2.2, by decide⟩

end Qemu
